import Mathlib

/-!
Shallow embedding of `FLocalSimulation`
(src/Plugins/LocalPhysics/Source/LocalPhysics/Public/LocalPhysicsSimulation.h).

The repository ships only the header: apart from the inline bodies of
`IsSimulated` and `GetLowLevelBody`, every method body is absent from the
sources. Definitions for those methods are therefore modelled from the
spec (each carries a doc comment starting `Modelled from the spec:`);
the header's declarations, field list and doc comments fix the state
shape and signatures. Scalars are exact rationals standing in for the
C++ floats, machine-word indices are `Nat`/`Int`.
-/

namespace LocalPhysics

/-- A 3-vector over exact rationals, standing in for `FVector` / `PxVec3`. -/
structure Vec3 where
  x : ℚ
  y : ℚ
  z : ℚ
deriving DecidableEq, Repr

namespace Vec3

def zero : Vec3 := ⟨0, 0, 0⟩

instance : Inhabited Vec3 := ⟨zero⟩

def add (a b : Vec3) : Vec3 := ⟨a.x + b.x, a.y + b.y, a.z + b.z⟩

def sub (a b : Vec3) : Vec3 := ⟨a.x - b.x, a.y - b.y, a.z - b.z⟩

instance : Add Vec3 := ⟨add⟩

instance : Sub Vec3 := ⟨sub⟩

/-- Scalar multiplication. -/
def smul (q : ℚ) (v : Vec3) : Vec3 := ⟨q * v.x, q * v.y, q * v.z⟩

/-- Squared Euclidean norm (kept squared so the embedding stays in exact
rational arithmetic). -/
def normSq (v : Vec3) : ℚ := v.x * v.x + v.y * v.y + v.z * v.z

end Vec3

/-- Exact-on-squares rational square root: componentwise integer square
roots of numerator and denominator. Agrees with the true square root on
every rational that is the square of a rational with reduced
numerator/denominator squares, which is the regime the witnesses use. -/
def ratSqrt (q : ℚ) : ℚ := (Int.sqrt q.num : ℚ) / (Nat.sqrt q.den : ℚ)

/-- One shape of an actor: local transform, geometry reference (an index
into externally owned geometry), conservative bounding radius and bounds
offset, mirroring the per-shape columns of `FShapeSOA`. The owning-actor
column of the SOA is represented implicitly by which actor's shape list
the shape sits in. -/
structure FShape where
  localTM : Vec3
  geometry : Nat
  bound : ℚ
  boundsOffset : Vec3
deriving DecidableEq, Repr

/-- Loose per-actor data (`FActor`): the actor's ordered shape list. -/
structure FActor where
  shapes : List FShape
deriving DecidableEq, Repr

instance : Inhabited FActor := ⟨⟨[]⟩⟩

/-- Low level rigid body data (`immediate::PxRigidBodyData`): world
transform (reduced to its translation over ℚ), linear and angular
velocity, and inverse mass standing in for the inverse mass/inertia
block. -/
structure PxRigidBodyData where
  tm : Vec3
  linearVelocity : Vec3
  angularVelocity : Vec3
  invMass : ℚ
deriving DecidableEq, Repr

instance : Inhabited PxRigidBodyData := ⟨⟨Vec3.zero, Vec3.zero, Vec3.zero, 0⟩⟩

/-- Low level solver body data (`PxSolverBodyData`): the reduced state
the solver consumes, rebuilt each frame by `ConstructSolverBodies`. -/
structure PxSolverBodyData where
  linearVelocity : Vec3
  angularVelocity : Vec3
  invMass : ℚ
deriving DecidableEq, Repr

instance : Inhabited PxSolverBodyData := ⟨⟨Vec3.zero, Vec3.zero, 0⟩⟩

/-- A contact pair generated for this frame (`FContactPair`): the two
actor-data indices and the contact point(s) grouped with the pair. -/
structure FContactPair where
  a : Nat
  b : Nat
  point : Vec3
deriving DecidableEq, Repr

/-- A solver constraint descriptor (`PxSolverConstraintDesc`): the two
body indices the constraint references. -/
structure FConstraintDesc where
  bodyA : Nat
  bodyB : Nat
deriving DecidableEq, Repr

/-- The three actor categories (`ECreateActorType`). -/
inductive ECreateActorType where
  | StaticActor
  | KinematicActor
  | DynamicActor
deriving DecidableEq, Repr

/-- The four force application modes (`EForceType`). -/
inductive EForceType where
  | AddForce
  | AddAcceleration
  | AddImpulse
  | AddVelocity
deriving DecidableEq, Repr

/-- Radial falloff kinds (`ERadialImpulseFalloff`): constant within the
radius, or linear attenuation with distance. -/
inductive ERadialImpulseFalloff where
  | RIF_Constant
  | RIF_Linear
deriving DecidableEq, Repr

/-- The registry-side record behind one `FActorHandle`: the handle's
recorded actor-data index, the category the actor was created with, and
whether the handle is still live. Handles themselves are identified by
their position in the simulation's handle-record table (the embedding's
stand-in for handle pointer identity); a removed handle's record is
marked dead rather than erased, matching pointer stability. -/
structure HandleRec where
  index : Nat
  category : ECreateActorType
  live : Bool
deriving DecidableEq, Repr

instance : Inhabited HandleRec := ⟨⟨0, ECreateActorType.StaticActor, false⟩⟩

/-- Owns all the data associated with the simulation (`FLocalSimulation`).
Field-for-field image of the header's private state, restricted to the
fields the verified claims touch; per-actor parallel arrays are Lean
lists indexed by actor-data index. -/
structure FLocalSimulation where
  /-- Handle records; a handle id is a position in this table. -/
  handleRecs : List HandleRec
  /-- Mapping from entity index to handle (`ActorHandles`). -/
  actorHandles : List Nat
  /-- Entities holding loose data (`Actors`). -/
  actors : List FActor
  /-- Low level rigid body data (`RigidBodiesData`). -/
  rigidBodiesData : List PxRigidBodyData
  /-- Low level solver bodies data (`SolverBodiesData`). -/
  solverBodiesData : List PxSolverBodyData
  /-- Pending accelerations (`PendingAcceleration`). -/
  pendingAcceleration : List Vec3
  /-- Number of dynamic bodies (`NumSimulatedBodies`). -/
  numSimulatedBodies : Nat
  /-- Number of dynamic bodies that are actually active
  (`NumActiveSimulatedBodies`). -/
  numActiveSimulatedBodies : Nat
  /-- Number of kinematic bodies (`NumKinematicBodies`). -/
  numKinematicBodies : Nat
  /-- Count of how many times we've ticked (`SimCount`). -/
  simCount : Nat
  /-- The tick at which the iteration cache was last validated. -/
  lastValidatedSimCount : Nat
  /-- Whether the iteration cache must be rebuilt
  (`bRecreateIterationCache`). -/
  bRecreateIterationCache : Bool
  /-- Ignore-pair relation over handle ids (`IgnoreCollisionPairTable`),
  queried in both orders. -/
  ignoreCollisionPairTable : List (Nat × Nat)
  /-- Handles excluded from all collision (`IgnoreCollisionActors`). -/
  ignoreCollisionActors : List Nat
  /-- The iteration cache contents: the memoized enumeration of actor
  index pairs eligible for narrow phase (`SkipCollisionCache` plus the
  enumeration it filters). -/
  cachedPairs : List (Nat × Nat)
  /-- Contact pairs generated for this frame (`ContactPairs`). -/
  contactPairs : List FContactPair
  /-- Constraint batches output by `BatchConstraints` (`BatchHeaders`
  together with `OrderedDescriptors`). -/
  batchHeaders : List (List FConstraintDesc)
deriving DecidableEq, Repr

/-- The empty simulation world (`FLocalSimulation()` constructor). -/
def emptySimulation : FLocalSimulation where
  handleRecs := []
  actorHandles := []
  actors := []
  rigidBodiesData := []
  solverBodiesData := []
  pendingAcceleration := []
  numSimulatedBodies := 0
  numActiveSimulatedBodies := 0
  numKinematicBodies := 0
  simCount := 0
  lastValidatedSimCount := 0
  bRecreateIterationCache := false
  ignoreCollisionPairTable := []
  ignoreCollisionActors := []
  cachedPairs := []
  contactPairs := []
  batchHeaders := []

/-! ### Generic list helpers

The C++ code mutates several parallel `TArray`s with the same structural
operation (swap two slots, append, pop); these helpers express those
operations on Lean lists. -/

/-- Swap the elements at positions `i` and `j`; identity when either
index is out of range. -/
def swapL (l : List α) (i j : Nat) : List α :=
  match l[i]?, l[j]? with
  | some a, some b => (l.set i b).set j a
  | _, _ => l

/-- Apply `f` to the element at position `i`; identity out of range. -/
def modifyL (l : List α) (i : Nat) (f : α → α) : List α :=
  match l[i]? with
  | some a => l.set i (f a)
  | none => l

/-- `List.mapIdx` with the index available, defined recursively so its
unfolding lemmas stay elementary. -/
def mapIdxL (f : Nat → α → β) : List α → List β :=
  go 0
where
  go (i : Nat) : List α → List β
    | [] => []
    | a :: as => f i a :: go (i + 1) as

/-! ### Registry operations -/

namespace FLocalSimulation

/-- Modelled from the spec: `SwapActorData` ("move all data associated
with the two actors in the various arrays", header line 127), whose body
is absent from the sources. Swaps slots `i` and `j` of every per-actor
parallel array and fixes up the two affected handles' recorded indices. -/
def SwapActorData (s : FLocalSimulation) (i j : Nat) : FLocalSimulation :=
  let h1 := s.actorHandles.getD i 0
  let h2 := s.actorHandles.getD j 0
  { s with
    actorHandles := swapL s.actorHandles i j
    actors := swapL s.actors i j
    rigidBodiesData := swapL s.rigidBodiesData i j
    solverBodiesData := swapL s.solverBodiesData i j
    pendingAcceleration := swapL s.pendingAcceleration i j
    handleRecs :=
      modifyL (modifyL s.handleRecs h1 (fun r => { r with index := j }))
        h2 (fun r => { r with index := i }) }

/-- Initial data for a newly created actor: its loose data and its low
level rigid body data, standing in for the externally owned
`PxRigidActor` descriptor plus initial transform. -/
structure ActorInit where
  actor : FActor
  body : PxRigidBodyData
deriving DecidableEq, Repr

/-- Modelled from the spec: the append half of the shared `CreateActor`
path (header line 123), whose body is absent from the sources. Appends
the new actor to every per-actor parallel array in lock-step ("all
per-actor arrays grow in lock-step", spec section 4.1), issues a fresh
handle recording the end slot, and, being a structural change, flags
the iteration cache for rebuild. -/
def appendActor (s : FLocalSimulation) (cat : ECreateActorType) (init : ActorInit) :
    FLocalSimulation :=
  { s with
    handleRecs := s.handleRecs ++ [⟨s.actorHandles.length, cat, true⟩]
    actorHandles := s.actorHandles ++ [s.handleRecs.length]
    actors := s.actors ++ [init.actor]
    rigidBodiesData := s.rigidBodiesData ++ [init.body]
    solverBodiesData := s.solverBodiesData ++ [default]
    pendingAcceleration := s.pendingAcceleration ++ [Vec3.zero]
    bRecreateIterationCache := true }

/-- Modelled from the spec: the category dispatch of the shared
`CreateActor` path. After the lock-step append, the new slot is swapped
into its category partition and the category count is bumped; dynamic
creation also resets the active count (header line 60). -/
def CreateActor (s : FLocalSimulation) (cat : ECreateActorType) (init : ActorInit) :
    FLocalSimulation :=
  let L := s.actorHandles.length
  let s1 := s.appendActor cat init
  match cat with
  | ECreateActorType.StaticActor => s1
  | ECreateActorType.KinematicActor =>
      let s2 := s1.SwapActorData (s.numSimulatedBodies + s.numKinematicBodies) L
      { s2 with numKinematicBodies := s.numKinematicBodies + 1 }
  | ECreateActorType.DynamicActor =>
      let s2 := s1.SwapActorData (s.numSimulatedBodies + s.numKinematicBodies) L
      let s3 := s2.SwapActorData s.numSimulatedBodies
        (s.numSimulatedBodies + s.numKinematicBodies)
      { s3 with
        numSimulatedBodies := s.numSimulatedBodies + 1
        numActiveSimulatedBodies := s.numSimulatedBodies + 1 }

/-- Modelled from the spec: `CreateDynamicActor` (header line 46), whose
body is absent from the sources. Returns the new handle id together with
the updated world. -/
def CreateDynamicActor (s : FLocalSimulation) (init : ActorInit) : FLocalSimulation :=
  s.CreateActor ECreateActorType.DynamicActor init

/-- Modelled from the spec: `CreateKinematicActor` (header line 43),
whose body is absent from the sources. -/
def CreateKinematicActor (s : FLocalSimulation) (init : ActorInit) : FLocalSimulation :=
  s.CreateActor ECreateActorType.KinematicActor init

/-- Modelled from the spec: `CreateStaticActor` (header line 49), whose
body is absent from the sources. -/
def CreateStaticActor (s : FLocalSimulation) (init : ActorInit) : FLocalSimulation :=
  s.CreateActor ECreateActorType.StaticActor init

/-- Drop the last slot of every per-actor parallel array and mark handle
`h` dead; the final step of removal once the removed actor has been
swapped to the very end of storage. -/
def popActor (s : FLocalSimulation) (h : Nat) : FLocalSimulation :=
  { s with
    actorHandles := s.actorHandles.dropLast
    actors := s.actors.dropLast
    rigidBodiesData := s.rigidBodiesData.dropLast
    solverBodiesData := s.solverBodiesData.dropLast
    pendingAcceleration := s.pendingAcceleration.dropLast
    handleRecs := modifyL s.handleRecs h (fun r => { r with live := false })
    bRecreateIterationCache := true }

/-- The removal path once the handle's record has been fetched: swap
the removed index to the last slot of its category, propagate the
vacated slot through each later category boundary, shrink the category,
then pop the final slot and retire the handle. -/
def removeActorRec (s : FLocalSimulation) (h : Nat) (rec : HandleRec) : FLocalSimulation :=
  if rec.live = false then s
  else
    match rec.category with
    | ECreateActorType.DynamicActor =>
        popActor
          { ((s.SwapActorData rec.index (s.numSimulatedBodies - 1)).SwapActorData
              (s.numSimulatedBodies - 1)
              (s.numSimulatedBodies + s.numKinematicBodies - 1)).SwapActorData
              (s.numSimulatedBodies + s.numKinematicBodies - 1) (s.actorHandles.length - 1)
            with numSimulatedBodies := s.numSimulatedBodies - 1 } h
    | ECreateActorType.KinematicActor =>
        popActor
          { (s.SwapActorData rec.index
              (s.numSimulatedBodies + s.numKinematicBodies - 1)).SwapActorData
              (s.numSimulatedBodies + s.numKinematicBodies - 1) (s.actorHandles.length - 1)
            with numKinematicBodies := s.numKinematicBodies - 1 } h
    | ECreateActorType.StaticActor =>
        popActor (s.SwapActorData rec.index (s.actorHandles.length - 1)) h

/-- Modelled from the spec: `RemoveActor` (header line 54), whose body
is absent from the sources. "Removal swaps the removed index with the
last index of the same category, shrinks that category, ... and fixes up
the swapped handle's recorded index" (spec section 4.1); to also "keep
storage contiguous" (spec section 3) the vacated last-of-category slot
is propagated through each later category boundary before the final
slot is popped. Untracked or dead handles are left untouched (using
them is a programming error per spec section 7). -/
def RemoveActor (s : FLocalSimulation) (h : Nat) : FLocalSimulation :=
  match s.handleRecs[h]? with
  | none => s
  | some rec => s.removeActorRec h rec

/-- Modelled from the spec: `SetNumActiveBodies` (header line 61), whose
body is absent from the sources. The header leaves the value unvalidated
(spec section 9 "open question"); the model stores it as given, and
`AddRadialForce` treats any index past the active-body count as a no-op. -/
def SetNumActiveBodies (s : FLocalSimulation) (n : Nat) : FLocalSimulation :=
  { s with numActiveSimulatedBodies := n }

/-- Modelled from the spec: `SetIgnoreCollisionPairTable` (header line
71), whose body is absent from the sources. Replaces the ignore-pair
relation and invalidates the iteration cache ("Both calls invalidate the
Iteration Cache", spec section 4.3); the relation is queried in both
orders, making it symmetric. -/
def SetIgnoreCollisionPairTable (s : FLocalSimulation) (pairs : List (Nat × Nat)) :
    FLocalSimulation :=
  { s with ignoreCollisionPairTable := pairs, bRecreateIterationCache := true }

/-- Modelled from the spec: `SetIgnoreCollisionActors` (header line 74),
whose body is absent from the sources. Replaces the ignore-actor set and
invalidates the iteration cache. -/
def SetIgnoreCollisionActors (s : FLocalSimulation) (hs : List Nat) : FLocalSimulation :=
  { s with ignoreCollisionActors := hs, bRecreateIterationCache := true }

/-- Whether or not an entity is simulated (`IsSimulated`, header lines
80-83; this body is present verbatim in the sources:
`return ActorDataIndex < NumSimulatedBodies;`). -/
def IsSimulated (s : FLocalSimulation) (actorDataIndex : Nat) : Bool :=
  actorDataIndex < s.numSimulatedBodies

/-- The category owning storage index `i` under the fixed partition
order `[0, NumSimulatedBodies)` dynamic-simulated, then kinematic, then
static (spec section 3). -/
def categoryOf (s : FLocalSimulation) (i : Nat) : ECreateActorType :=
  if i < s.numSimulatedBodies then ECreateActorType.DynamicActor
  else if i < s.numSimulatedBodies + s.numKinematicBodies then ECreateActorType.KinematicActor
  else ECreateActorType.StaticActor

/-- The handle id stored at actor-data index `i`. -/
def HandleOfIndex (s : FLocalSimulation) (i : Nat) : Nat :=
  s.actorHandles.getD i 0

/-- Whether collision between the actors with handle ids `hA` and `hB`
is suppressed by the filter state: the pair is in the ignore-pair
relation (queried in either order) or either handle is in the
ignore-actor set. -/
def IgnoredPair (s : FLocalSimulation) (hA hB : Nat) : Bool :=
  decide (hA ∈ s.ignoreCollisionActors) || decide (hB ∈ s.ignoreCollisionActors) ||
    decide ((hA, hB) ∈ s.ignoreCollisionPairTable) ||
    decide ((hB, hA) ∈ s.ignoreCollisionPairTable)

/-- Modelled from the spec: the enumeration built by
`PrepareIterationCache` (header line 152), whose body is absent from the
sources. Orders every actor index pair `(i, j)` with `i < j` whose first
member is simulated (at least one dynamic body must participate for a
contact to matter to the solver; with the partition order the smaller
index of such a pair is the simulated one), excluding pairs suppressed
by the filter table ("excluding pairs covered by the Filter Table", spec
section 4.4). -/
def candidatePairs (s : FLocalSimulation) : List (Nat × Nat) :=
  (List.range s.actorHandles.length).flatMap (fun i =>
    (List.range s.actorHandles.length).filterMap (fun j =>
      if i < s.numSimulatedBodies ∧ i < j ∧
          IgnoredPair s (HandleOfIndex s i) (HandleOfIndex s j) = false
      then some (i, j) else none))

/-- Modelled from the spec: `PrepareIterationCache` (header line 152),
whose body is absent from the sources. Rebuilds the memoized pair
enumeration exactly when a structural or filter change was flagged and
the tick counter advanced since the cache was last validated ("keyed to
a monotonically increasing simulation tick counter", spec section 4.4);
a rebuild revalidates the cache at the current tick and clears the
flag. -/
def PrepareIterationCache (s : FLocalSimulation) : FLocalSimulation :=
  if s.bRecreateIterationCache = true ∧ s.simCount ≠ s.lastValidatedSimCount then
    { s with
      cachedPairs := candidatePairs s
      lastValidatedSimCount := s.simCount
      bRecreateIterationCache := false }
  else s

/-- Modelled from the spec: `ConstructSolverBodies` (header line 137),
whose body is absent from the sources. For each simulated body, applies
gravity and the pending accumulated acceleration over the step to the
body's velocity and clears the pending slot ("apply gravity and any
pending accumulated forces as acceleration contributions for this
step", spec section 4.5 stage 1); rebuilds the solver body array in
lock-step, kinematic and static bodies getting degenerate
(zero-inverse-mass) solver state. -/
def ConstructSolverBodies (s : FLocalSimulation) (deltaTime : ℚ) (gravity : Vec3) :
    FLocalSimulation :=
  let rbd := mapIdxL (fun i rb =>
    if i < s.numSimulatedBodies then
      { rb with linearVelocity :=
          rb.linearVelocity + Vec3.smul deltaTime (gravity + s.pendingAcceleration.getD i Vec3.zero) }
    else rb) s.rigidBodiesData
  { s with
    rigidBodiesData := rbd
    pendingAcceleration := mapIdxL (fun i a =>
      if i < s.numSimulatedBodies then Vec3.zero else a) s.pendingAcceleration
    solverBodiesData := mapIdxL (fun i rb =>
      { linearVelocity := rb.linearVelocity
        angularVelocity := rb.angularVelocity
        invMass := if i < s.numSimulatedBodies then rb.invMass else 0 }) rbd }

/-- The conservative bounding radius of an actor: the largest bound among
its shapes. -/
def actorBound (a : FActor) : ℚ :=
  a.shapes.foldl (fun acc sh => max acc sh.bound) 0

/-- Modelled from the spec: the narrow-phase overlap decision invoked by
`GenerateContacts` per live shape pair. The external kernel that derives
exact contact points is out of scope (spec section 1); the embedding
tests the actors' conservative bounding spheres, which is the decision
the pipeline's own bookkeeping observes. -/
def Overlap (s : FLocalSimulation) (i j : Nat) : Bool :=
  let pi := (s.rigidBodiesData.getD i default).tm
  let pj := (s.rigidBodiesData.getD j default).tm
  let bi := actorBound (s.actors.getD i default)
  let bj := actorBound (s.actors.getD j default)
  Vec3.normSq (pi - pj) ≤ (bi + bj) * (bi + bj)

/-- Modelled from the spec: `GenerateContacts` (header line 140), whose
body is absent from the sources. Iterates the iteration-cache
enumeration, testing each enumerated pair and appending a contact pair
per touching pair ("iterate the Iteration Cache enumeration ...
appending results to the per-frame Contact Pair list", spec section 4.5
stage 2). -/
def GenerateContacts (s : FLocalSimulation) : FLocalSimulation :=
  { s with
    contactPairs := s.cachedPairs.filterMap (fun p =>
      if Overlap s p.1 p.2 then
        some { a := p.1, b := p.2
               point := Vec3.smul (1 / 2)
                 ((s.rigidBodiesData.getD p.1 default).tm +
                   (s.rigidBodiesData.getD p.2 default).tm) }
      else none) }

/-- Whether two constraint descriptors reference a common body index. -/
def descConflict (d e : FConstraintDesc) : Bool :=
  d.bodyA == e.bodyA || d.bodyA == e.bodyB || d.bodyB == e.bodyA || d.bodyB == e.bodyB

/-- Whether descriptor `d` conflicts with any member of batch `b`. -/
def descConflictsBatch (d : FConstraintDesc) (b : List FConstraintDesc) : Bool :=
  b.any (descConflict d)

/-- Place one descriptor into the first batch it does not conflict with,
opening a new batch when every existing batch shares a body with it. -/
def insertDesc (batches : List (List FConstraintDesc)) (d : FConstraintDesc) :
    List (List FConstraintDesc) :=
  match batches with
  | [] => [[d]]
  | b :: rest =>
      if descConflictsBatch d b then b :: insertDesc rest d else (d :: b) :: rest

/-- Modelled from the spec: `BatchConstraints` (header line 143), whose
body is absent from the sources. Partitions the frame's constraint
descriptors into independent batches "such that no two constraints in
the same batch reference a shared body" (spec section 4.5 stage 3) by
greedy first-fit. -/
def BatchConstraints (descs : List FConstraintDesc) : List (List FConstraintDesc) :=
  descs.foldl insertDesc []

/-- The constraint descriptor of one generated contact pair. -/
def descOfContact (cp : FContactPair) : FConstraintDesc :=
  { bodyA := cp.a, bodyB := cp.b }

/-- The batching stage of the pipeline: records the batches
`BatchConstraints` builds from the frame's constraint descriptors. -/
def BatchConstraintsStage (s : FLocalSimulation) : FLocalSimulation :=
  { s with batchHeaders := BatchConstraints (s.contactPairs.map descOfContact) }

/-- Modelled from the spec: `PrepareConstraints` (header line 146),
whose body is absent from the sources. Converting batched constraints
into solver rows is the external kernel's capability ("constraint-row
derivation", spec section 1 places it out of scope), so the pipeline
state the embedding tracks is unchanged by this stage. -/
def PrepareConstraints (s : FLocalSimulation) (_deltaTime : ℚ) : FLocalSimulation := s

/-- Modelled from the spec: `SolveAndIntegrate` (header line 149), whose
body is absent from the sources. The iterative velocity/position solve
is the external kernel's capability (spec section 1); the integration it
ends with writes each simulated body's solved velocity into its
transform ("integrate solved velocities into new transforms", spec
section 4.5 stage 5). -/
def SolveAndIntegrate (s : FLocalSimulation) (deltaTime : ℚ) : FLocalSimulation :=
  { s with
    rigidBodiesData := mapIdxL (fun i rb =>
      if i < s.numSimulatedBodies then
        { rb with tm := rb.tm + Vec3.smul deltaTime rb.linearVelocity }
      else rb) s.rigidBodiesData }

/-- Modelled from the spec: `Simulate` (header line 77), whose body is
absent from the sources. Bumps the tick counter, then runs the fixed
stage order of spec section 4.5: prepare the iteration cache, construct
solver bodies, generate contacts, batch constraints, prepare
constraints, solve and integrate. -/
def Simulate (s : FLocalSimulation) (deltaTime : ℚ) (gravity : Vec3) : FLocalSimulation :=
  SolveAndIntegrate
    (PrepareConstraints
      (BatchConstraintsStage
        (GenerateContacts
          (ConstructSolverBodies
            (PrepareIterationCache { s with simCount := s.simCount + 1 })
            deltaTime gravity)))
      deltaTime)
    deltaTime

/-- Whether `actorIndex` names an active simulated body: non-negative,
below the active-body count and the simulated partition, and inside the
parallel arrays. Per spec section 9, any index at or past the
active-body count is treated as a no-op by `AddRadialForce`. -/
def ActiveBodyIndex (s : FLocalSimulation) (actorIndex : Int) : Bool :=
  0 ≤ actorIndex && actorIndex.toNat < s.numActiveSimulatedBodies &&
    actorIndex.toNat < s.numSimulatedBodies &&
    actorIndex.toNat < s.rigidBodiesData.length

/-- Whether the body at index `i` lies within `radius` of `origin`,
decided in exact arithmetic on squared distances. -/
def WithinRadius (s : FLocalSimulation) (i : Nat) (origin : Vec3) (radius : ℚ) : Bool :=
  0 ≤ radius && Vec3.normSq ((s.rigidBodiesData.getD i default).tm - origin) ≤ radius * radius

/-- Modelled from the spec: the radial effect vector `AddRadialForce`
requests for the body at index `i`: directed from `origin` to the body,
with magnitude `strength` attenuated by the falloff kind (constant, or
linear with distance inside the radius; spec section 4.6). The distance
entering direction normalization and linear attenuation is taken by
`ratSqrt`, exact on the witnesses' configurations. -/
def radialDelta (s : FLocalSimulation) (i : Nat) (origin : Vec3) (strength radius : ℚ)
    (falloff : ERadialImpulseFalloff) : Vec3 :=
  let v := (s.rigidBodiesData.getD i default).tm - origin
  let dist := ratSqrt (Vec3.normSq v)
  let magnitude :=
    match falloff with
    | ERadialImpulseFalloff.RIF_Constant => strength
    | ERadialImpulseFalloff.RIF_Linear => strength * (1 - dist / radius)
  if dist = 0 then Vec3.zero else Vec3.smul (magnitude / dist) v

/-- Modelled from the spec: `AddRadialForce` (header line 94), whose
body is absent from the sources. "Applies a radial effect to one active
simulated body if its position lies within `radius` of `origin`" (spec
section 4.6); an invalid or inactive index, or a body outside the
radius, is a no-op. The force type selects the scaling law of the spec's
table: `AddForce` and `AddAcceleration` accumulate into the pending
acceleration consumed (times `deltaTime`) by the next step's
`ConstructSolverBodies`, `AddForce` scaling by inverse mass;
`AddImpulse` and `AddVelocity` change the velocity immediately,
`AddImpulse` scaling by inverse mass. -/
def AddRadialForce (s : FLocalSimulation) (actorIndex : Int) (origin : Vec3)
    (strength radius : ℚ) (falloff : ERadialImpulseFalloff) (forceType : EForceType) :
    FLocalSimulation :=
  if ActiveBodyIndex s actorIndex = true then
    let i := actorIndex.toNat
    if WithinRadius s i origin radius = true then
      let rb := s.rigidBodiesData.getD i default
      let delta := radialDelta s i origin strength radius falloff
      match forceType with
      | EForceType.AddForce =>
          { s with pendingAcceleration :=
              modifyL s.pendingAcceleration i (fun a => a + Vec3.smul rb.invMass delta) }
      | EForceType.AddAcceleration =>
          { s with pendingAcceleration :=
              modifyL s.pendingAcceleration i (fun a => a + delta) }
      | EForceType.AddImpulse =>
          { s with rigidBodiesData :=
              modifyL s.rigidBodiesData i (fun b =>
                { b with linearVelocity := b.linearVelocity + Vec3.smul rb.invMass delta }) }
      | EForceType.AddVelocity =>
          { s with rigidBodiesData :=
              modifyL s.rigidBodiesData i (fun b =>
                { b with linearVelocity := b.linearVelocity + delta }) }
    else s
  else s

end FLocalSimulation

/-! ### Operation sequences and the registry invariant -/

/-- One structural registry operation: an actor creation of one of the
three categories, or a removal through a handle. -/
inductive FSimOp where
  | createDynamic (init : FLocalSimulation.ActorInit)
  | createKinematic (init : FLocalSimulation.ActorInit)
  | createStatic (init : FLocalSimulation.ActorInit)
  | removeActor (h : Nat)
deriving Repr

/-- Apply one structural operation to the world. -/
def applyOp (s : FLocalSimulation) : FSimOp → FLocalSimulation
  | FSimOp.createDynamic init => s.CreateDynamicActor init
  | FSimOp.createKinematic init => s.CreateKinematicActor init
  | FSimOp.createStatic init => s.CreateStaticActor init
  | FSimOp.removeActor h => s.RemoveActor h

/-- Apply a sequence of structural operations, left to right. -/
def applyOps (s : FLocalSimulation) (ops : List FSimOp) : FLocalSimulation :=
  ops.foldl applyOp s

namespace FLocalSimulation

/-- The handle id recorded at slot `i` (`ActorHandles[i]`). -/
def slotHandle (s : FLocalSimulation) (i : Nat) : Nat :=
  s.actorHandles.getD i 0

/-- The handle record for handle id `h`. -/
def recOf (s : FLocalSimulation) (h : Nat) : HandleRec :=
  s.handleRecs.getD h default

/-- The loose actor data a live handle resolves to. -/
def resolveActor (s : FLocalSimulation) (h : Nat) : FActor :=
  s.actors.getD (s.recOf h).index default

/-- The low level rigid body data a live handle resolves to: world
transform, velocities and mass/inertia. -/
def resolveBody (s : FLocalSimulation) (h : Nat) : PxRigidBodyData :=
  s.rigidBodiesData.getD (s.recOf h).index default

/-- The alignment half of the registry invariant checked by
`ValidateArrays` (header line 134): all per-actor parallel arrays have
the length of `ActorHandles`; the category counts fit the storage; each
slot's handle is a live record naming exactly that slot; and each live
handle's recorded index points back at a slot holding that handle. -/
structure Align (s : FLocalSimulation) : Prop where
  len_actors : s.actors.length = s.actorHandles.length
  len_rigid : s.rigidBodiesData.length = s.actorHandles.length
  len_solver : s.solverBodiesData.length = s.actorHandles.length
  len_pending : s.pendingAcceleration.length = s.actorHandles.length
  counts_le : s.numSimulatedBodies + s.numKinematicBodies ≤ s.actorHandles.length
  slot_handle_lt : ∀ i, i < s.actorHandles.length → s.slotHandle i < s.handleRecs.length
  slot_live : ∀ i, i < s.actorHandles.length → (s.recOf (s.slotHandle i)).live = true
  slot_index : ∀ i, i < s.actorHandles.length → (s.recOf (s.slotHandle i)).index = i
  live_index_lt : ∀ h, h < s.handleRecs.length → (s.recOf h).live = true →
    (s.recOf h).index < s.actorHandles.length
  live_slot : ∀ h, h < s.handleRecs.length → (s.recOf h).live = true →
    s.slotHandle (s.recOf h).index = h

/-- The full registry invariant: alignment (`ValidateArrays`) together
with the partition invariant of spec section 3 — each slot's record
carries the category owning the slot under the fixed partition order. -/
structure WF (s : FLocalSimulation) extends Align s : Prop where
  slot_cat : ∀ i, i < s.actorHandles.length →
    (s.recOf (s.slotHandle i)).category = s.categoryOf i

/-- The index transposition a slot swap induces. -/
def transposeIdx (i j k : Nat) : Nat :=
  if k = i then j else if k = j then i else k

end FLocalSimulation

/-! ### Concrete configurations used by witnesses -/

/-- A unit-bound shape at the local origin. -/
def witnessShape : FShape where
  localTM := Vec3.zero
  geometry := 0
  bound := 1
  boundsOffset := Vec3.zero

/-- A unit-inverse-mass body at rest at position `p`. -/
def witnessBodyAt (p : Vec3) : PxRigidBodyData where
  tm := p
  linearVelocity := Vec3.zero
  angularVelocity := Vec3.zero
  invMass := 1

/-- Creation data for a one-shape actor at rest at position `p`. -/
def witnessInitAt (p : Vec3) : FLocalSimulation.ActorInit where
  actor := { shapes := [witnessShape] }
  body := witnessBodyAt p

/-- Creation data for a one-shape actor at the origin. -/
def witnessInit : FLocalSimulation.ActorInit := witnessInitAt Vec3.zero

/-! ## Theorems -/

/-! ### List helper lemmas -/

theorem length_swapL (l : List α) (i j : Nat) : (swapL l i j).length = l.length := by
  unfold swapL
  cases hi : l[i]? <;> cases hj : l[j]? <;> simp

theorem length_modifyL (l : List α) (i : Nat) (f : α → α) :
    (modifyL l i f).length = l.length := by
  unfold modifyL
  cases hi : l[i]? <;> simp

theorem getElem?_swapL_left (l : List α) (i j : Nat) (hi : i < l.length)
    (hj : j < l.length) : (swapL l i j)[i]? = l[j]? := by
  unfold swapL
  rw [List.getElem?_eq_getElem hi, List.getElem?_eq_getElem hj]
  by_cases hij : i = j
  · subst hij
    rw [List.getElem?_set_self (by simpa using hi)]
  · rw [List.getElem?_set_ne (fun h => hij h.symm), List.getElem?_set_self (by simpa using hi)]

theorem getElem?_swapL_right (l : List α) (i j : Nat) (hi : i < l.length)
    (hj : j < l.length) : (swapL l i j)[j]? = l[i]? := by
  unfold swapL
  rw [List.getElem?_eq_getElem hi, List.getElem?_eq_getElem hj]
  rw [List.getElem?_set_self (by simpa using hj)]

theorem getElem?_swapL_ne (l : List α) (i j k : Nat) (hki : k ≠ i) (hkj : k ≠ j) :
    (swapL l i j)[k]? = l[k]? := by
  unfold swapL
  cases hi : l[i]? <;> cases hj : l[j]? <;>
    simp [List.getElem?_set_ne (fun h => hkj h.symm), List.getElem?_set_ne (fun h => hki h.symm)]

theorem getElem?_modifyL_self (l : List α) (i : Nat) (f : α → α) (hi : i < l.length) :
    (modifyL l i f)[i]? = some (f (l[i])) := by
  unfold modifyL
  rw [List.getElem?_eq_getElem hi, List.getElem?_set_self (by simpa using hi)]

theorem getElem?_modifyL_ne (l : List α) (i k : Nat) (f : α → α) (hki : k ≠ i) :
    (modifyL l i f)[k]? = l[k]? := by
  unfold modifyL
  cases hi : l[i]? <;> simp [List.getElem?_set_ne (fun h => hki h.symm)]

theorem length_mapIdxL_go (f : Nat → α → β) (i : Nat) (l : List α) :
    (mapIdxL.go f i l).length = l.length := by
  induction l generalizing i with
  | nil => rfl
  | cons a as ih => simp [mapIdxL.go, ih]

theorem length_mapIdxL (f : Nat → α → β) (l : List α) :
    (mapIdxL f l).length = l.length := length_mapIdxL_go f 0 l

theorem getElem?_mapIdxL_go (f : Nat → α → β) (i k : Nat) (l : List α) :
    (mapIdxL.go f i l)[k]? = (l[k]?).map (f (i + k)) := by
  induction l generalizing i k with
  | nil => simp [mapIdxL.go]
  | cons a as ih =>
    cases k with
    | zero => simp [mapIdxL.go]
    | succ k' =>
      simp only [mapIdxL.go, List.getElem?_cons_succ]
      rw [ih]
      have harith : i + 1 + k' = i + (k' + 1) := by omega
      rw [harith]

theorem getElem?_mapIdxL (f : Nat → α → β) (k : Nat) (l : List α) :
    (mapIdxL f l)[k]? = (l[k]?).map (f k) := by
  have := getElem?_mapIdxL_go f 0 k l
  simpa using this

theorem getD_eq_getElem? (l : List α) (i : Nat) (d : α) : l.getD i d = (l[i]?).getD d :=
  List.getD_eq_getElem?_getD l i d

theorem getD_swapL_left (l : List α) (i j : Nat) (d : α) (hi : i < l.length)
    (hj : j < l.length) : (swapL l i j).getD i d = l.getD j d := by
  rw [getD_eq_getElem?, getD_eq_getElem?, getElem?_swapL_left l i j hi hj]

theorem getD_swapL_right (l : List α) (i j : Nat) (d : α) (hi : i < l.length)
    (hj : j < l.length) : (swapL l i j).getD j d = l.getD i d := by
  rw [getD_eq_getElem?, getD_eq_getElem?, getElem?_swapL_right l i j hi hj]

theorem getD_swapL_ne (l : List α) (i j k : Nat) (d : α) (hki : k ≠ i) (hkj : k ≠ j) :
    (swapL l i j).getD k d = l.getD k d := by
  rw [getD_eq_getElem?, getD_eq_getElem?, getElem?_swapL_ne l i j k hki hkj]

theorem getD_modifyL_self (l : List α) (i : Nat) (f : α → α) (d : α) (hi : i < l.length) :
    (modifyL l i f).getD i d = f (l.getD i d) := by
  rw [getD_eq_getElem?, getD_eq_getElem?, getElem?_modifyL_self l i f hi,
    List.getElem?_eq_getElem hi]
  rfl

theorem getD_modifyL_ne (l : List α) (i k : Nat) (f : α → α) (d : α) (hki : k ≠ i) :
    (modifyL l i f).getD k d = l.getD k d := by
  rw [getD_eq_getElem?, getD_eq_getElem?, getElem?_modifyL_ne l i k f hki]

theorem getD_mapIdxL (f : Nat → α → α) (l : List α) (k : Nat) (d : α) (hk : k < l.length) :
    (mapIdxL f l).getD k d = f k (l.getD k d) := by
  rw [getD_eq_getElem?, getD_eq_getElem?, getElem?_mapIdxL, List.getElem?_eq_getElem hk]
  rfl

theorem getD_append_lt (l l' : List α) (i : Nat) (d : α) (hi : i < l.length) :
    (l ++ l').getD i d = l.getD i d := by
  rw [getD_eq_getElem?, getD_eq_getElem?, List.getElem?_append_left hi]

theorem getD_append_last (l : List α) (a : α) (d : α) :
    (l ++ [a]).getD l.length d = a := by
  rw [getD_eq_getElem?]
  simp

theorem getD_dropLast (l : List α) (i : Nat) (d : α) (hi : i < l.length - 1) :
    l.dropLast.getD i d = l.getD i d := by
  rw [getD_eq_getElem?, getD_eq_getElem?]
  have h1 : i < l.dropLast.length := by simpa using hi
  have h2 : i < l.length := by omega
  rw [List.getElem?_eq_getElem h1, List.getElem?_eq_getElem h2, List.getElem_dropLast]

/-! ### Vector algebra -/

theorem Vec3.add_def (a b : Vec3) : a + b = ⟨a.x + b.x, a.y + b.y, a.z + b.z⟩ := rfl

theorem Vec3.smul_def (q : ℚ) (v : Vec3) : Vec3.smul q v = ⟨q * v.x, q * v.y, q * v.z⟩ := rfl

theorem Vec3.add_assoc' (a b c : Vec3) : a + b + c = a + (b + c) := by
  simp only [Vec3.add_def, Vec3.mk.injEq]
  refine ⟨by ring, by ring, by ring⟩

theorem Vec3.smul_add (q : ℚ) (a b : Vec3) :
    Vec3.smul q (a + b) = Vec3.smul q a + Vec3.smul q b := by
  simp only [Vec3.add_def, Vec3.smul_def, Vec3.mk.injEq]
  refine ⟨by ring, by ring, by ring⟩

theorem Vec3.add_zero' (a : Vec3) : a + Vec3.zero = a := by
  cases a
  simp [Vec3.add_def, Vec3.zero]

/-! ### Pipeline stage frame lemmas -/

namespace FLocalSimulation

theorem prepare_frame (s : FLocalSimulation) :
    (s.PrepareIterationCache).actorHandles = s.actorHandles ∧
    (s.PrepareIterationCache).actors = s.actors ∧
    (s.PrepareIterationCache).rigidBodiesData = s.rigidBodiesData ∧
    (s.PrepareIterationCache).pendingAcceleration = s.pendingAcceleration ∧
    (s.PrepareIterationCache).numSimulatedBodies = s.numSimulatedBodies ∧
    (s.PrepareIterationCache).numActiveSimulatedBodies = s.numActiveSimulatedBodies ∧
    (s.PrepareIterationCache).numKinematicBodies = s.numKinematicBodies ∧
    (s.PrepareIterationCache).handleRecs = s.handleRecs ∧
    (s.PrepareIterationCache).ignoreCollisionPairTable = s.ignoreCollisionPairTable ∧
    (s.PrepareIterationCache).ignoreCollisionActors = s.ignoreCollisionActors ∧
    (s.PrepareIterationCache).simCount = s.simCount := by
  unfold PrepareIterationCache
  split <;> exact ⟨rfl, rfl, rfl, rfl, rfl, rfl, rfl, rfl, rfl, rfl, rfl⟩

theorem prepare_rebuild (s : FLocalSimulation)
    (hflag : s.bRecreateIterationCache = true)
    (htick : s.simCount ≠ s.lastValidatedSimCount) :
    (s.PrepareIterationCache).cachedPairs = candidatePairs s ∧
    (s.PrepareIterationCache).lastValidatedSimCount = s.simCount ∧
    (s.PrepareIterationCache).bRecreateIterationCache = false := by
  unfold PrepareIterationCache
  rw [if_pos ⟨hflag, htick⟩]
  exact ⟨rfl, rfl, rfl⟩

theorem prepare_skip (s : FLocalSimulation)
    (h : ¬(s.bRecreateIterationCache = true ∧ s.simCount ≠ s.lastValidatedSimCount)) :
    s.PrepareIterationCache = s := by
  unfold PrepareIterationCache
  rw [if_neg h]

theorem construct_frame (s : FLocalSimulation) (dt : ℚ) (g : Vec3) :
    (s.ConstructSolverBodies dt g).actorHandles = s.actorHandles ∧
    (s.ConstructSolverBodies dt g).actors = s.actors ∧
    (s.ConstructSolverBodies dt g).numSimulatedBodies = s.numSimulatedBodies ∧
    (s.ConstructSolverBodies dt g).numActiveSimulatedBodies = s.numActiveSimulatedBodies ∧
    (s.ConstructSolverBodies dt g).numKinematicBodies = s.numKinematicBodies ∧
    (s.ConstructSolverBodies dt g).handleRecs = s.handleRecs ∧
    (s.ConstructSolverBodies dt g).cachedPairs = s.cachedPairs ∧
    (s.ConstructSolverBodies dt g).bRecreateIterationCache = s.bRecreateIterationCache ∧
    (s.ConstructSolverBodies dt g).lastValidatedSimCount = s.lastValidatedSimCount := by
  unfold ConstructSolverBodies
  exact ⟨rfl, rfl, rfl, rfl, rfl, rfl, rfl, rfl, rfl⟩

theorem generate_frame (s : FLocalSimulation) :
    (s.GenerateContacts).actorHandles = s.actorHandles ∧
    (s.GenerateContacts).actors = s.actors ∧
    (s.GenerateContacts).rigidBodiesData = s.rigidBodiesData ∧
    (s.GenerateContacts).pendingAcceleration = s.pendingAcceleration ∧
    (s.GenerateContacts).numSimulatedBodies = s.numSimulatedBodies ∧
    (s.GenerateContacts).cachedPairs = s.cachedPairs ∧
    (s.GenerateContacts).bRecreateIterationCache = s.bRecreateIterationCache ∧
    (s.GenerateContacts).lastValidatedSimCount = s.lastValidatedSimCount := by
  unfold GenerateContacts
  exact ⟨rfl, rfl, rfl, rfl, rfl, rfl, rfl, rfl⟩

theorem batchStage_frame (s : FLocalSimulation) :
    (s.BatchConstraintsStage).rigidBodiesData = s.rigidBodiesData ∧
    (s.BatchConstraintsStage).contactPairs = s.contactPairs ∧
    (s.BatchConstraintsStage).numSimulatedBodies = s.numSimulatedBodies ∧
    (s.BatchConstraintsStage).cachedPairs = s.cachedPairs ∧
    (s.BatchConstraintsStage).bRecreateIterationCache = s.bRecreateIterationCache ∧
    (s.BatchConstraintsStage).lastValidatedSimCount = s.lastValidatedSimCount := by
  unfold BatchConstraintsStage
  exact ⟨rfl, rfl, rfl, rfl, rfl, rfl⟩

theorem solve_frame (s : FLocalSimulation) (dt : ℚ) :
    (s.SolveAndIntegrate dt).contactPairs = s.contactPairs ∧
    (s.SolveAndIntegrate dt).cachedPairs = s.cachedPairs ∧
    (s.SolveAndIntegrate dt).bRecreateIterationCache = s.bRecreateIterationCache ∧
    (s.SolveAndIntegrate dt).lastValidatedSimCount = s.lastValidatedSimCount ∧
    (s.SolveAndIntegrate dt).numSimulatedBodies = s.numSimulatedBodies := by
  unfold SolveAndIntegrate
  exact ⟨rfl, rfl, rfl, rfl, rfl⟩

theorem solve_linearVelocity (s : FLocalSimulation) (dt : ℚ) (i : Nat)
    (hi : i < s.rigidBodiesData.length) :
    ((s.SolveAndIntegrate dt).rigidBodiesData.getD i default).linearVelocity
      = (s.rigidBodiesData.getD i default).linearVelocity := by
  unfold SolveAndIntegrate
  rw [getD_mapIdxL _ _ _ _ hi]
  split <;> rfl

theorem construct_linearVelocity (s : FLocalSimulation) (dt : ℚ) (g : Vec3) (i : Nat)
    (hi : i < s.rigidBodiesData.length) (hsim : i < s.numSimulatedBodies) :
    ((s.ConstructSolverBodies dt g).rigidBodiesData.getD i default).linearVelocity
      = (s.rigidBodiesData.getD i default).linearVelocity
        + Vec3.smul dt (g + s.pendingAcceleration.getD i Vec3.zero) := by
  unfold ConstructSolverBodies
  rw [getD_mapIdxL _ _ _ _ hi]
  rw [if_pos hsim]

theorem prepareConstraints_id (s : FLocalSimulation) (dt : ℚ) :
    s.PrepareConstraints dt = s := rfl

theorem construct_length (s : FLocalSimulation) (dt : ℚ) (g : Vec3) :
    (s.ConstructSolverBodies dt g).rigidBodiesData.length = s.rigidBodiesData.length := by
  unfold ConstructSolverBodies
  exact length_mapIdxL _ _

/-- The velocity a simulated body carries out of one full `Simulate`
step: its previous velocity plus `deltaTime` times the sum of gravity
and its pending acceleration (the external solve leaves velocities of an
unconstrained body untouched). -/
theorem simulate_linearVelocity (s : FLocalSimulation) (dt : ℚ) (g : Vec3) (i : Nat)
    (hi : i < s.rigidBodiesData.length) (hsim : i < s.numSimulatedBodies) :
    ((s.Simulate dt g).rigidBodiesData.getD i default).linearVelocity
      = (s.rigidBodiesData.getD i default).linearVelocity
        + Vec3.smul dt (g + s.pendingAcceleration.getD i Vec3.zero) := by
  unfold Simulate
  rw [prepareConstraints_id]
  have h0 : ({ s with simCount := s.simCount + 1 } : FLocalSimulation).rigidBodiesData
      = s.rigidBodiesData := rfl
  have h0p : ({ s with simCount := s.simCount + 1 } : FLocalSimulation).pendingAcceleration
      = s.pendingAcceleration := rfl
  have h0n : ({ s with simCount := s.simCount + 1 } : FLocalSimulation).numSimulatedBodies
      = s.numSimulatedBodies := rfl
  obtain ⟨-, -, hrb, hpa, hns, -, -, -, -, -, -⟩ :=
    prepare_frame ({ s with simCount := s.simCount + 1 } : FLocalSimulation)
  obtain ⟨-, -, hgrb, hgpa, hgns, -, -, -⟩ :=
    generate_frame ((({ s with simCount := s.simCount + 1 } :
      FLocalSimulation).PrepareIterationCache).ConstructSolverBodies dt g)
  obtain ⟨hbrb, -, hbns, -, -, -⟩ :=
    batchStage_frame (((({ s with simCount := s.simCount + 1 } :
      FLocalSimulation).PrepareIterationCache).ConstructSolverBodies dt g).GenerateContacts)
  rw [solve_linearVelocity]
  · rw [hbrb, hgrb]
    rw [construct_linearVelocity]
    · rw [hrb, h0, hpa, h0p]
    · rw [hrb, h0]
      exact hi
    · rw [hns, h0n]
      exact hsim
  · rw [hbrb, hgrb, construct_length, hrb, h0]
    exact hi

end FLocalSimulation

/-! ### Constraint batching -/

namespace FLocalSimulation

theorem descConflictsBatch_false_iff (d : FConstraintDesc) (b : List FConstraintDesc) :
    descConflictsBatch d b = false ↔ ∀ e ∈ b, descConflict d e = false := by
  unfold descConflictsBatch
  simp [List.any_eq_false]

theorem insertDesc_good (bs : List (List FConstraintDesc)) (d : FConstraintDesc)
    (hbs : ∀ b ∈ bs, b.Pairwise (fun x y => descConflict x y = false)) :
    ∀ b ∈ insertDesc bs d, b.Pairwise (fun x y => descConflict x y = false) := by
  induction bs with
  | nil =>
    intro b hb
    simp only [insertDesc, List.mem_singleton] at hb
    subst hb
    simp
  | cons b0 rest ih =>
    intro b hb
    simp only [insertDesc] at hb
    by_cases hc : descConflictsBatch d b0 = true
    · rw [if_pos hc] at hb
      rcases List.mem_cons.mp hb with h | h
      · exact h ▸ hbs b0 (List.mem_cons_self b0 rest)
      · exact ih (fun b' hb' => hbs b' (List.mem_cons_of_mem b0 hb')) b h
    · rw [if_neg hc] at hb
      rcases List.mem_cons.mp hb with h | h
      · subst h
        refine List.pairwise_cons.mpr ⟨?_, hbs b0 (List.mem_cons_self b0 rest)⟩
        exact (descConflictsBatch_false_iff d b0).mp (Bool.not_eq_true _ ▸ hc)
      · exact hbs b (List.mem_cons_of_mem b0 h)

theorem foldl_insertDesc_good (descs : List FConstraintDesc)
    (acc : List (List FConstraintDesc))
    (hacc : ∀ b ∈ acc, b.Pairwise (fun x y => descConflict x y = false)) :
    ∀ b ∈ descs.foldl insertDesc acc, b.Pairwise (fun x y => descConflict x y = false) := by
  induction descs generalizing acc with
  | nil => exact hacc
  | cons d rest ih => exact ih (insertDesc acc d) (insertDesc_good acc d hacc)

/-! ### Claim theorems -/

/-- C10: `IsSimulated` is total on every index, returns `true` exactly
when the index is below `NumSimulatedBodies`, depends on no simulation
state other than `NumSimulatedBodies`, and returns `false` on every
index whose partition category is kinematic or static. -/
theorem c10_isSimulated_characterization (s t : FLocalSimulation) (i : Nat) :
    (s.IsSimulated i = true ↔ i < s.numSimulatedBodies) ∧
    (t.numSimulatedBodies = s.numSimulatedBodies → t.IsSimulated i = s.IsSimulated i) ∧
    (s.categoryOf i ≠ ECreateActorType.DynamicActor → s.IsSimulated i = false) := by
  refine ⟨by simp [FLocalSimulation.IsSimulated],
    fun ht => by simp [FLocalSimulation.IsSimulated, ht], fun hc => ?_⟩
  unfold FLocalSimulation.categoryOf at hc
  by_cases h : i < s.numSimulatedBodies
  · exact absurd (if_pos h) hc
  · simp [FLocalSimulation.IsSimulated, h]

/-- Witness for C10 at a concrete world: the empty simulation has no
simulated bodies, so index 0 is not simulated. -/
theorem c10_isSimulated_characterization_witness :
    emptySimulation.IsSimulated 0 = false :=
  (c10_isSimulated_characterization emptySimulation emptySimulation 0).2.2 (by decide)

/-- C9: the active-body count written by `SetNumActiveBodies` does not
survive dynamic-actor creation: whatever `n` was set, creating a
simulated body resets `NumActiveSimulatedBodies` to the new simulated
count, so `n` no longer bounds which indices count as active. -/
theorem c9_create_resets_active_count (s : FLocalSimulation) (n : Nat)
    (init : FLocalSimulation.ActorInit) :
    ((s.SetNumActiveBodies n).CreateDynamicActor init).numActiveSimulatedBodies
        = s.numSimulatedBodies + 1 ∧
    ((s.SetNumActiveBodies n).CreateDynamicActor init).numActiveSimulatedBodies
        = ((s.SetNumActiveBodies n).CreateDynamicActor init).numSimulatedBodies := by
  exact ⟨rfl, rfl⟩

/-- C7: `AddRadialForce` is a no-op unless the index names an active
simulated body inside the arrays whose position lies within the radius
of the origin. -/
theorem c7_addRadialForce_noop (s : FLocalSimulation) (actorIndex : Int) (origin : Vec3)
    (strength radius : ℚ) (falloff : ERadialImpulseFalloff) (forceType : EForceType)
    (h : s.ActiveBodyIndex actorIndex = false ∨
      s.WithinRadius actorIndex.toNat origin radius = false) :
    s.AddRadialForce actorIndex origin strength radius falloff forceType = s := by
  unfold FLocalSimulation.AddRadialForce
  rcases h with h | h
  · rw [if_neg (by simp [h])]
  · by_cases hA : s.ActiveBodyIndex actorIndex = true
    · rw [if_pos hA, if_neg (by simp [h])]
    · rw [if_neg hA]

/-- Witness for C7: on the empty simulation every index is out of range,
so the call leaves the world untouched. -/
theorem c7_addRadialForce_noop_witness :
    emptySimulation.AddRadialForce 0 Vec3.zero 5 10 ERadialImpulseFalloff.RIF_Constant
      EForceType.AddImpulse = emptySimulation :=
  c7_addRadialForce_noop emptySimulation 0 Vec3.zero 5 10 ERadialImpulseFalloff.RIF_Constant
    EForceType.AddImpulse (Or.inl (by decide))

/-- C6: every batch output by `BatchConstraints` is body-disjoint: no
two constraints in the same batch reference a common body index. -/
theorem c6_batches_body_disjoint (descs : List FConstraintDesc) :
    ∀ b ∈ BatchConstraints descs, b.Pairwise (fun x y => descConflict x y = false) :=
  foldl_insertDesc_good descs [] (by intro b hb; cases hb)

/-- Witness for C6 on a concrete constraint set: two constraints sharing
body 0 and one disjoint constraint; the second batch built is
conflict-free. -/
theorem c6_batches_body_disjoint_witness :
    ([⟨0, 2⟩] : List FConstraintDesc).Pairwise (fun x y => descConflict x y = false) :=
  c6_batches_body_disjoint [⟨0, 1⟩, ⟨0, 2⟩, ⟨3, 4⟩] [⟨0, 2⟩] (by decide)

/-- C8: starting from the empty world, creating one dynamic actor at
the origin with mass 1 and zero velocity and stepping once with
`deltaTime = 1` and `gravity = (0, 0, -10)` leaves the actor with
vertical velocity exactly -10 and generates no contact pairs. -/
theorem c8_gravity_scenario :
    ((((emptySimulation.CreateDynamicActor (witnessInitAt Vec3.zero)).Simulate 1
        ⟨0, 0, -10⟩).rigidBodiesData.getD 0 default).linearVelocity = ⟨0, 0, -10⟩) ∧
    ((emptySimulation.CreateDynamicActor (witnessInitAt Vec3.zero)).Simulate 1
        ⟨0, 0, -10⟩).contactPairs = [] := by
  exact ⟨by with_unfolding_all rfl, by with_unfolding_all rfl⟩

/-- C4: for an active simulated body within radius the four force types
scale the requested radial delta `x` as the spec's table demands, with
`invMass` standing for `1/m`: relative to a step without the call,
`AddForce` changes the stepped velocity by `x·dt·invMass`,
`AddAcceleration` by `x·dt`; `AddImpulse` changes the velocity
immediately by `x·invMass`, `AddVelocity` immediately by `x` exactly. -/
theorem c4_force_scaling (s : FLocalSimulation) (actorIndex : Int) (origin : Vec3)
    (strength radius : ℚ) (falloff : ERadialImpulseFalloff) (dt : ℚ) (g : Vec3)
    (hA : s.ActiveBodyIndex actorIndex = true)
    (hW : s.WithinRadius actorIndex.toNat origin radius = true)
    (hp : actorIndex.toNat < s.pendingAcceleration.length) :
    (((s.AddRadialForce actorIndex origin strength radius falloff
          EForceType.AddForce).Simulate dt g).rigidBodiesData.getD actorIndex.toNat
        default).linearVelocity
      = ((s.Simulate dt g).rigidBodiesData.getD actorIndex.toNat default).linearVelocity
        + Vec3.smul dt (Vec3.smul (s.rigidBodiesData.getD actorIndex.toNat default).invMass
            (s.radialDelta actorIndex.toNat origin strength radius falloff)) ∧
    (((s.AddRadialForce actorIndex origin strength radius falloff
          EForceType.AddAcceleration).Simulate dt g).rigidBodiesData.getD actorIndex.toNat
        default).linearVelocity
      = ((s.Simulate dt g).rigidBodiesData.getD actorIndex.toNat default).linearVelocity
        + Vec3.smul dt (s.radialDelta actorIndex.toNat origin strength radius falloff) ∧
    ((s.AddRadialForce actorIndex origin strength radius falloff
          EForceType.AddImpulse).rigidBodiesData.getD actorIndex.toNat
        default).linearVelocity
      = (s.rigidBodiesData.getD actorIndex.toNat default).linearVelocity
        + Vec3.smul (s.rigidBodiesData.getD actorIndex.toNat default).invMass
            (s.radialDelta actorIndex.toNat origin strength radius falloff) ∧
    ((s.AddRadialForce actorIndex origin strength radius falloff
          EForceType.AddVelocity).rigidBodiesData.getD actorIndex.toNat
        default).linearVelocity
      = (s.rigidBodiesData.getD actorIndex.toNat default).linearVelocity
        + s.radialDelta actorIndex.toNat origin strength radius falloff := by
  have hA' := hA
  simp only [ActiveBodyIndex, Bool.and_eq_true, decide_eq_true_eq] at hA'
  obtain ⟨⟨⟨hnn, hact⟩, hsim⟩, hlen⟩ := hA'
  refine ⟨?_, ?_, ?_, ?_⟩
  · rw [show s.AddRadialForce actorIndex origin strength radius falloff EForceType.AddForce
        = { s with pendingAcceleration := (modifyL s.pendingAcceleration actorIndex.toNat
            (fun a => a + Vec3.smul (s.rigidBodiesData.getD actorIndex.toNat default).invMass
              (s.radialDelta actorIndex.toNat origin strength radius falloff))) } by
      unfold AddRadialForce
      rw [if_pos hA, if_pos hW]]
    rw [simulate_linearVelocity s dt g actorIndex.toNat hlen hsim]
    rw [simulate_linearVelocity ({ s with pendingAcceleration :=
        (modifyL s.pendingAcceleration actorIndex.toNat
          (fun a => a + Vec3.smul (s.rigidBodiesData.getD actorIndex.toNat default).invMass
            (s.radialDelta actorIndex.toNat origin strength radius falloff))) })
      dt g actorIndex.toNat hlen hsim]
    show (s.rigidBodiesData.getD actorIndex.toNat default).linearVelocity
        + Vec3.smul dt (g + (modifyL s.pendingAcceleration actorIndex.toNat _).getD
            actorIndex.toNat Vec3.zero) = _
    rw [getD_modifyL_self _ _ _ _ hp]
    rw [show g + (s.pendingAcceleration.getD actorIndex.toNat Vec3.zero
          + Vec3.smul (s.rigidBodiesData.getD actorIndex.toNat default).invMass
              (s.radialDelta actorIndex.toNat origin strength radius falloff))
        = g + s.pendingAcceleration.getD actorIndex.toNat Vec3.zero
          + Vec3.smul (s.rigidBodiesData.getD actorIndex.toNat default).invMass
              (s.radialDelta actorIndex.toNat origin strength radius falloff) from
      (Vec3.add_assoc' _ _ _).symm]
    rw [Vec3.smul_add]
    exact (Vec3.add_assoc' _ _ _).symm
  · rw [show s.AddRadialForce actorIndex origin strength radius falloff EForceType.AddAcceleration
        = { s with pendingAcceleration := (modifyL s.pendingAcceleration actorIndex.toNat
            (fun a => a + s.radialDelta actorIndex.toNat origin strength radius falloff)) } by
      unfold AddRadialForce
      rw [if_pos hA, if_pos hW]]
    rw [simulate_linearVelocity s dt g actorIndex.toNat hlen hsim]
    rw [simulate_linearVelocity ({ s with pendingAcceleration :=
        (modifyL s.pendingAcceleration actorIndex.toNat
          (fun a => a + s.radialDelta actorIndex.toNat origin strength radius falloff)) })
      dt g actorIndex.toNat hlen hsim]
    show (s.rigidBodiesData.getD actorIndex.toNat default).linearVelocity
        + Vec3.smul dt (g + (modifyL s.pendingAcceleration actorIndex.toNat _).getD
            actorIndex.toNat Vec3.zero) = _
    rw [getD_modifyL_self _ _ _ _ hp]
    rw [show g + (s.pendingAcceleration.getD actorIndex.toNat Vec3.zero
          + s.radialDelta actorIndex.toNat origin strength radius falloff)
        = g + s.pendingAcceleration.getD actorIndex.toNat Vec3.zero
          + s.radialDelta actorIndex.toNat origin strength radius falloff from
      (Vec3.add_assoc' _ _ _).symm]
    rw [Vec3.smul_add]
    exact (Vec3.add_assoc' _ _ _).symm
  · rw [show s.AddRadialForce actorIndex origin strength radius falloff EForceType.AddImpulse
        = { s with rigidBodiesData := (modifyL s.rigidBodiesData actorIndex.toNat
            (fun b => { b with linearVelocity := (b.linearVelocity
              + Vec3.smul (s.rigidBodiesData.getD actorIndex.toNat default).invMass
                  (s.radialDelta actorIndex.toNat origin strength radius falloff)) })) } by
      unfold AddRadialForce
      rw [if_pos hA, if_pos hW]]
    show ((modifyL s.rigidBodiesData actorIndex.toNat _).getD actorIndex.toNat
        default).linearVelocity = _
    rw [getD_modifyL_self _ _ _ _ hlen]
  · rw [show s.AddRadialForce actorIndex origin strength radius falloff EForceType.AddVelocity
        = { s with rigidBodiesData := (modifyL s.rigidBodiesData actorIndex.toNat
            (fun b => { b with linearVelocity := (b.linearVelocity
              + s.radialDelta actorIndex.toNat origin strength radius falloff) })) } by
      unfold AddRadialForce
      rw [if_pos hA, if_pos hW]]
    show ((modifyL s.rigidBodiesData actorIndex.toNat _).getD actorIndex.toNat
        default).linearVelocity = _
    rw [getD_modifyL_self _ _ _ _ hlen]

/-- Witness for C4 at a concrete world: one dynamic body at `(3, 4, 0)`
(distance 5 from the origin, inside radius 10); with constant falloff
and strength 5, `AddVelocity` adds the radial delta to the velocity
directly. -/
theorem c4_force_scaling_witness :
    (((emptySimulation.CreateDynamicActor (witnessInitAt ⟨3, 4, 0⟩)).AddRadialForce 0 Vec3.zero
          5 10 ERadialImpulseFalloff.RIF_Constant
          EForceType.AddVelocity).rigidBodiesData.getD (0 : Int).toNat
        default).linearVelocity
      = (((emptySimulation.CreateDynamicActor
            (witnessInitAt ⟨3, 4, 0⟩)).rigidBodiesData.getD (0 : Int).toNat
          default).linearVelocity)
        + (emptySimulation.CreateDynamicActor (witnessInitAt ⟨3, 4, 0⟩)).radialDelta
            (0 : Int).toNat Vec3.zero 5 10 ERadialImpulseFalloff.RIF_Constant :=
  (c4_force_scaling (emptySimulation.CreateDynamicActor (witnessInitAt ⟨3, 4, 0⟩)) 0 Vec3.zero
    5 10 ERadialImpulseFalloff.RIF_Constant 1 Vec3.zero
    (by with_unfolding_all decide) (by with_unfolding_all decide)
    (by with_unfolding_all decide)).2.2.2

/-- The iteration-cache bookkeeping a full `Simulate` step leaves
behind is exactly what `PrepareIterationCache` computed on the
tick-bumped state: no later stage touches it. -/
theorem simulate_cache_fields (s : FLocalSimulation) (dt : ℚ) (g : Vec3) :
    (s.Simulate dt g).cachedPairs
      = (PrepareIterationCache { s with simCount := s.simCount + 1 }).cachedPairs ∧
    (s.Simulate dt g).bRecreateIterationCache
      = (PrepareIterationCache { s with simCount := s.simCount + 1 }).bRecreateIterationCache ∧
    (s.Simulate dt g).lastValidatedSimCount
      = (PrepareIterationCache { s with simCount := s.simCount + 1 }).lastValidatedSimCount ∧
    (s.Simulate dt g).contactPairs
      = ((PrepareIterationCache { s with simCount := s.simCount + 1 }).ConstructSolverBodies
          dt g).GenerateContacts.contactPairs := by
  unfold Simulate
  rw [prepareConstraints_id]
  obtain ⟨-, -, -, -, -, hcca, hcfl, hclv⟩ :=
    generate_frame ((PrepareIterationCache { s with simCount := s.simCount + 1 }
      : FLocalSimulation).ConstructSolverBodies dt g)
  obtain ⟨-, hbcp, -, hbca, hbfl, hblv⟩ :=
    batchStage_frame (((PrepareIterationCache { s with simCount := s.simCount + 1 }
      : FLocalSimulation).ConstructSolverBodies dt g).GenerateContacts)
  obtain ⟨hscp, hsca, hsfl, hslv, -⟩ :=
    solve_frame ((((PrepareIterationCache { s with simCount := s.simCount + 1 }
      : FLocalSimulation).ConstructSolverBodies dt g).GenerateContacts).BatchConstraintsStage) dt
  obtain ⟨-, -, -, -, -, -, hcoca, hcofl, hcolv⟩ :=
    construct_frame (PrepareIterationCache { s with simCount := s.simCount + 1 }
      : FLocalSimulation) dt g
  refine ⟨?_, ?_, ?_, ?_⟩
  · rw [hsca, hbca, hcca, hcoca]
  · rw [hsfl, hbfl, hcfl, hcofl]
  · rw [hslv, hblv, hclv, hcolv]
  · rw [hscp, hbcp]

/-- Rebuilding reads no field the tick bump writes: the enumeration on
the tick-bumped state is the enumeration on the state itself. -/
theorem candidatePairs_simCount (s : FLocalSimulation) (n : Nat) :
    candidatePairs { s with simCount := n } = candidatePairs s := rfl

/-- C5: the iteration cache is rebuilt during `Simulate` exactly when a
structural or filter change was flagged and the tick advanced past the
last validation; an unchanged world keeps identical cache contents
across repeated `Simulate` calls; and both filter setters flag the
cache for rebuild. -/
theorem c5_iteration_cache_policy (s : FLocalSimulation) (dt dt' : ℚ) (g g' : Vec3)
    (pairs : List (Nat × Nat)) (ignores : List Nat) :
    ((s.bRecreateIterationCache = true ∧ s.simCount + 1 ≠ s.lastValidatedSimCount) →
      ((s.Simulate dt g).cachedPairs = candidatePairs s ∧
       (s.Simulate dt g).lastValidatedSimCount = s.simCount + 1 ∧
       (s.Simulate dt g).bRecreateIterationCache = false)) ∧
    (¬(s.bRecreateIterationCache = true ∧ s.simCount + 1 ≠ s.lastValidatedSimCount) →
      ((s.Simulate dt g).cachedPairs = s.cachedPairs ∧
       (s.Simulate dt g).lastValidatedSimCount = s.lastValidatedSimCount ∧
       (s.Simulate dt g).bRecreateIterationCache = s.bRecreateIterationCache)) ∧
    (s.lastValidatedSimCount ≤ s.simCount →
      ((s.Simulate dt g).Simulate dt' g').cachedPairs = (s.Simulate dt g).cachedPairs) ∧
    ((s.SetIgnoreCollisionPairTable pairs).bRecreateIterationCache = true ∧
     (s.SetIgnoreCollisionActors ignores).bRecreateIterationCache = true) := by
  obtain ⟨hca, hfl, hlv, -⟩ := simulate_cache_fields s dt g
  have hrebuild : (s.bRecreateIterationCache = true ∧ s.simCount + 1 ≠ s.lastValidatedSimCount) →
      ((s.Simulate dt g).cachedPairs = candidatePairs s ∧
       (s.Simulate dt g).lastValidatedSimCount = s.simCount + 1 ∧
       (s.Simulate dt g).bRecreateIterationCache = false) := by
    intro hcond
    obtain ⟨hc, hl, hb⟩ := prepare_rebuild ({ s with simCount := s.simCount + 1 }
      : FLocalSimulation) hcond.1 hcond.2
    exact ⟨by rw [hca, hc, candidatePairs_simCount], by rw [hlv, hl], by rw [hfl, hb]⟩
  have hskip : ¬(s.bRecreateIterationCache = true ∧ s.simCount + 1 ≠ s.lastValidatedSimCount) →
      ((s.Simulate dt g).cachedPairs = s.cachedPairs ∧
       (s.Simulate dt g).lastValidatedSimCount = s.lastValidatedSimCount ∧
       (s.Simulate dt g).bRecreateIterationCache = s.bRecreateIterationCache) := by
    intro hcond
    have heq := prepare_skip ({ s with simCount := s.simCount + 1 } : FLocalSimulation) hcond
    refine ⟨by rw [hca, heq], by rw [hlv, heq], by rw [hfl, heq]⟩
  refine ⟨hrebuild, hskip, ?_, rfl, rfl⟩
  intro htick
  obtain ⟨hca', hfl', hlv', -⟩ := simulate_cache_fields (s.Simulate dt g) dt' g'
  have hflag1 : (s.Simulate dt g).bRecreateIterationCache = false := by
    by_cases hcond : s.bRecreateIterationCache = true ∧
        s.simCount + 1 ≠ s.lastValidatedSimCount
    · exact (hrebuild hcond).2.2
    · have hnotflag : s.bRecreateIterationCache = false := by
        rcases Bool.eq_false_or_eq_true s.bRecreateIterationCache with h | h
        · exact absurd ⟨h, by omega⟩ hcond
        · exact h
      rw [(hskip hcond).2.2, hnotflag]
  have hskip2 := prepare_skip ({ (s.Simulate dt g) with
      simCount := (s.Simulate dt g).simCount + 1 } : FLocalSimulation)
    (by
      intro hcond
      exact absurd hcond.1 (by simp [hflag1]))
  rw [hca', hskip2]

/-- Witness for C5 at a concrete world: after flagging the cache by
setting a one-pair ignore table on a one-actor world, a `Simulate` step
clears the rebuild flag. -/
theorem c5_iteration_cache_policy_witness :
    (((emptySimulation.CreateDynamicActor witnessInit).SetIgnoreCollisionPairTable
        [(0, 0)]).Simulate 1 Vec3.zero).bRecreateIterationCache = false :=
  ((c5_iteration_cache_policy
      ((emptySimulation.CreateDynamicActor witnessInit).SetIgnoreCollisionPairTable [(0, 0)])
      1 1 Vec3.zero Vec3.zero [] []).1 ⟨rfl, by decide⟩).2.2

/-- A contact pair coming out of a `Simulate` step that rebuilt its
iteration cache always passes the collision filter: its two slots'
handles are not an ignored combination. -/
theorem simulate_contact_filtered (s : FLocalSimulation) (dt : ℚ) (g : Vec3)
    (cp : FContactPair) (hflag : s.bRecreateIterationCache = true)
    (htick : s.lastValidatedSimCount ≤ s.simCount)
    (hmem : cp ∈ (s.Simulate dt g).contactPairs) :
    s.IgnoredPair (s.HandleOfIndex cp.a) (s.HandleOfIndex cp.b) = false := by
  obtain ⟨-, -, -, hcp⟩ := simulate_cache_fields s dt g
  rw [hcp] at hmem
  obtain ⟨hcc, -, -⟩ := prepare_rebuild ({ s with simCount := s.simCount + 1 }
    : FLocalSimulation) hflag (by show s.simCount + 1 ≠ s.lastValidatedSimCount; omega)
  unfold GenerateContacts at hmem
  obtain ⟨-, -, -, -, -, -, hcoca, -, -⟩ :=
    construct_frame (PrepareIterationCache { s with simCount := s.simCount + 1 }
      : FLocalSimulation) dt g
  rw [hcoca, hcc, candidatePairs_simCount] at hmem
  simp only [List.mem_filterMap] at hmem
  obtain ⟨p, hpmem, hpeq⟩ := hmem
  unfold candidatePairs at hpmem
  simp only [List.mem_flatMap, List.mem_filterMap, List.mem_range] at hpmem
  obtain ⟨i, -, j, -, hij⟩ := hpmem
  by_cases hc : i < s.numSimulatedBodies ∧ i < j ∧
      s.IgnoredPair (s.HandleOfIndex i) (s.HandleOfIndex j) = false
  · rw [if_pos hc] at hij
    have hpi : p = (i, j) := by
      injection hij with h
      exact h.symm
    subst hpi
    have hcpa : cp.a = i ∧ cp.b = j := by
      by_cases hov : Overlap ((PrepareIterationCache { s with simCount := s.simCount + 1 }
          : FLocalSimulation).ConstructSolverBodies dt g) i j = true
      · rw [if_pos hov] at hpeq
        cases cp
        injection hpeq with h
        cases h
        exact ⟨rfl, rfl⟩
      · rw [if_neg hov] at hpeq
        cases hpeq
    rw [hcpa.1, hcpa.2]
    exact hc.2.2
  · rw [if_neg hc] at hij
    cases hij

/-- C2: after replacing the ignore-pair table with a relation containing
a pair (in either order), or after placing a handle in the ignore-actor
set, a `Simulate` step generates no contact pair whose slots carry that
combination of handles. -/
theorem c2_ignored_pairs_suppressed (s : FLocalSimulation) (dt : ℚ) (g : Vec3)
    (pairs : List (Nat × Nat)) (ignores : List Nat) (hA hB : Nat)
    (htick : s.lastValidatedSimCount ≤ s.simCount) :
    (((hA, hB) ∈ pairs ∨ (hB, hA) ∈ pairs) →
      (((s.SetIgnoreCollisionPairTable pairs).Simulate dt g).contactPairs.all
        (fun cp => !((s.HandleOfIndex cp.a == hA && s.HandleOfIndex cp.b == hB) ||
          (s.HandleOfIndex cp.a == hB && s.HandleOfIndex cp.b == hA)))) = true) ∧
    (hA ∈ ignores →
      (((s.SetIgnoreCollisionActors ignores).Simulate dt g).contactPairs.all
        (fun cp => !(s.HandleOfIndex cp.a == hA || s.HandleOfIndex cp.b == hA))) = true) := by
  constructor
  · intro hpair
    rw [List.all_eq_true]
    intro cp hcp
    have hfiltered := simulate_contact_filtered (s.SetIgnoreCollisionPairTable pairs) dt g cp
      rfl htick hcp
    unfold IgnoredPair at hfiltered
    simp only [Bool.or_eq_false_iff, decide_eq_false_iff_not] at hfiltered
    obtain ⟨⟨⟨-, -⟩, hab⟩, hba⟩ := hfiltered
    simp only [Bool.not_eq_true', Bool.or_eq_false_iff, Bool.and_eq_false_iff]
    have hha : (s.SetIgnoreCollisionPairTable pairs).HandleOfIndex cp.a
        = s.HandleOfIndex cp.a := rfl
    have hhb : (s.SetIgnoreCollisionPairTable pairs).HandleOfIndex cp.b
        = s.HandleOfIndex cp.b := rfl
    rw [hha, hhb] at hab hba
    have htab : (s.SetIgnoreCollisionPairTable pairs).ignoreCollisionPairTable = pairs := rfl
    rw [htab] at hab hba
    constructor
    · by_cases ha : s.HandleOfIndex cp.a = hA
      · by_cases hb : s.HandleOfIndex cp.b = hB
        · exfalso
          rcases hpair with h | h
          · exact hab (by rw [ha, hb]; exact h)
          · exact hba (by rw [ha, hb]; exact h)
        · right
          simpa using hb
      · left
        simpa using ha
    · by_cases ha : s.HandleOfIndex cp.a = hB
      · by_cases hb : s.HandleOfIndex cp.b = hA
        · exfalso
          rcases hpair with h | h
          · exact hba (by rw [ha, hb]; exact h)
          · exact hab (by rw [ha, hb]; exact h)
        · right
          simpa using hb
      · left
        simpa using ha
  · intro hmemA
    rw [List.all_eq_true]
    intro cp hcp
    have hfiltered := simulate_contact_filtered (s.SetIgnoreCollisionActors ignores) dt g cp
      rfl htick hcp
    unfold IgnoredPair at hfiltered
    simp only [Bool.or_eq_false_iff, decide_eq_false_iff_not] at hfiltered
    obtain ⟨⟨⟨hna, hnb⟩, -⟩, -⟩ := hfiltered
    have hia : (s.SetIgnoreCollisionActors ignores).ignoreCollisionActors = ignores := rfl
    rw [hia] at hna hnb
    simp only [Bool.not_eq_true', Bool.or_eq_false_iff, beq_eq_false_iff_ne, ne_eq]
    exact ⟨fun h => hna (h ▸ hmemA), fun h => hnb (h ▸ hmemA)⟩

/-! ### Swap-remove bookkeeping -/

theorem transposeIdx_left (i j : Nat) : transposeIdx i j i = j := by
  unfold transposeIdx
  simp

theorem transposeIdx_right (i j : Nat) : transposeIdx i j j = i := by
  unfold transposeIdx
  split_ifs <;> omega

theorem transposeIdx_ne (i j k : Nat) (hki : k ≠ i) (hkj : k ≠ j) :
    transposeIdx i j k = k := by
  unfold transposeIdx
  simp [hki, hkj]

theorem transposeIdx_lt (i j k n : Nat) (hi : i < n) (hj : j < n) (hk : k < n) :
    transposeIdx i j k < n := by
  unfold transposeIdx
  split_ifs <;> omega

theorem transposeIdx_invol (i j k : Nat) :
    transposeIdx i j (transposeIdx i j k) = k := by
  unfold transposeIdx
  split_ifs <;> omega

theorem slotHandle_def (s : FLocalSimulation) (i : Nat) :
    s.slotHandle i = s.actorHandles.getD i 0 := rfl

theorem getD_swapL_transpose (l : List α) (i j k : Nat) (d : α)
    (hi : i < l.length) (hj : j < l.length) :
    (swapL l i j).getD k d = l.getD (transposeIdx i j k) d := by
  by_cases h1 : k = i
  · rw [h1, transposeIdx_left]
    exact getD_swapL_left l i j d hi hj
  · by_cases h2 : k = j
    · rw [h2, transposeIdx_right]
      exact getD_swapL_right l i j d hi hj
    · rw [transposeIdx_ne i j k h1 h2]
      exact getD_swapL_ne l i j k d h1 h2

theorem swap_counts (s : FLocalSimulation) (i j : Nat) :
    (s.SwapActorData i j).numSimulatedBodies = s.numSimulatedBodies ∧
    (s.SwapActorData i j).numKinematicBodies = s.numKinematicBodies ∧
    (s.SwapActorData i j).numActiveSimulatedBodies = s.numActiveSimulatedBodies := by
  exact ⟨rfl, rfl, rfl⟩

theorem swap_lengths (s : FLocalSimulation) (i j : Nat) :
    (s.SwapActorData i j).actorHandles.length = s.actorHandles.length ∧
    (s.SwapActorData i j).actors.length = s.actors.length ∧
    (s.SwapActorData i j).rigidBodiesData.length = s.rigidBodiesData.length ∧
    (s.SwapActorData i j).solverBodiesData.length = s.solverBodiesData.length ∧
    (s.SwapActorData i j).pendingAcceleration.length = s.pendingAcceleration.length ∧
    (s.SwapActorData i j).handleRecs.length = s.handleRecs.length := by
  refine ⟨length_swapL _ _ _, length_swapL _ _ _, length_swapL _ _ _, length_swapL _ _ _,
    length_swapL _ _ _, ?_⟩
  show (modifyL (modifyL s.handleRecs _ _) _ _).length = _
  rw [length_modifyL, length_modifyL]

theorem swap_slotHandle (s : FLocalSimulation) (i j k : Nat)
    (hi : i < s.actorHandles.length) (hj : j < s.actorHandles.length) :
    (s.SwapActorData i j).slotHandle k = s.slotHandle (transposeIdx i j k) := by
  show (swapL s.actorHandles i j).getD k 0 = s.actorHandles.getD (transposeIdx i j k) 0
  exact getD_swapL_transpose s.actorHandles i j k 0 hi hj

theorem swap_getD_actors (s : FLocalSimulation) (i j k : Nat)
    (hi : i < s.actors.length) (hj : j < s.actors.length) :
    (s.SwapActorData i j).actors.getD k default = s.actors.getD (transposeIdx i j k) default :=
  getD_swapL_transpose s.actors i j k default hi hj

theorem swap_getD_rigid (s : FLocalSimulation) (i j k : Nat)
    (hi : i < s.rigidBodiesData.length) (hj : j < s.rigidBodiesData.length) :
    (s.SwapActorData i j).rigidBodiesData.getD k default
      = s.rigidBodiesData.getD (transposeIdx i j k) default :=
  getD_swapL_transpose s.rigidBodiesData i j k default hi hj

theorem swap_recOf (s : FLocalSimulation) (i j : Nat) (h : Nat)
    (h1lt : s.slotHandle i < s.handleRecs.length)
    (h2lt : s.slotHandle j < s.handleRecs.length) :
    (s.SwapActorData i j).recOf h
      = if h = s.slotHandle j then { s.recOf h with index := i }
        else if h = s.slotHandle i then { s.recOf h with index := j }
        else s.recOf h := by
  show (modifyL (modifyL s.handleRecs (s.slotHandle i) (fun r => { r with index := j }))
      (s.slotHandle j) (fun r => { r with index := i })).getD h default = _
  by_cases hh2 : h = s.slotHandle j
  · rw [if_pos hh2, hh2]
    rw [getD_modifyL_self _ _ _ _ (by rw [length_modifyL]; exact h2lt)]
    by_cases hh12 : s.slotHandle j = s.slotHandle i
    · rw [hh12, getD_modifyL_self _ _ _ _ h1lt]
      rfl
    · rw [getD_modifyL_ne _ _ _ _ _ hh12]
      rfl
  · rw [if_neg hh2, getD_modifyL_ne _ _ _ _ _ hh2]
    by_cases hh1 : h = s.slotHandle i
    · rw [if_pos hh1, hh1, getD_modifyL_self _ _ _ _ h1lt]
      rfl
    · rw [if_neg hh1, getD_modifyL_ne _ _ _ _ _ hh1]
      rfl

theorem slot_inj (s : FLocalSimulation) (A : s.Align) (i j : Nat)
    (hi : i < s.actorHandles.length) (hj : j < s.actorHandles.length) (hne : i ≠ j) :
    s.slotHandle i ≠ s.slotHandle j := by
  intro heq
  have h1 := A.slot_index i hi
  have h2 := A.slot_index j hj
  rw [heq] at h1
  exact hne (h1.symm.trans h2)

theorem handleRec_eta (r : HandleRec) (k : Nat) (hk : r.index = k) :
    ({ r with index := k } : HandleRec) = r := by
  cases r
  subst hk
  rfl

/-- The record behind slot `k` of a swapped state: the record that was
behind slot `transposeIdx i j k`, with its recorded index fixed to `k`. -/
theorem swap_slot_rec (s : FLocalSimulation) (i j k : Nat) (A : s.Align)
    (hi : i < s.actorHandles.length) (hj : j < s.actorHandles.length)
    (hk : k < s.actorHandles.length) :
    (s.SwapActorData i j).recOf ((s.SwapActorData i j).slotHandle k)
      = { s.recOf (s.slotHandle (transposeIdx i j k)) with index := k } := by
  rw [swap_slotHandle s i j k hi hj]
  rw [swap_recOf s i j _ (A.slot_handle_lt i hi) (A.slot_handle_lt j hj)]
  by_cases h1 : k = i
  · subst h1
    rw [transposeIdx_left]
    rw [if_pos rfl]
  · by_cases h2 : k = j
    · subst h2
      rw [transposeIdx_right]
      rw [if_neg (slot_inj s A i k hi hk (fun hh => h1 hh.symm)), if_pos rfl]
    · rw [transposeIdx_ne i j k h1 h2]
      rw [if_neg (slot_inj s A k j hk hj h2), if_neg (slot_inj s A k i hk hi h1)]
      exact (handleRec_eta _ k (A.slot_index k hk)).symm

/-- How a swap relabels one live handle: its recorded index moves
through the transposition, its liveness and category stay. -/
theorem swap_recOf_live (s : FLocalSimulation) (i j h : Nat) (A : s.Align)
    (hi : i < s.actorHandles.length) (hj : j < s.actorHandles.length)
    (hlt : h < s.handleRecs.length) (hlive : (s.recOf h).live = true) :
    ((s.SwapActorData i j).recOf h).index = transposeIdx i j (s.recOf h).index ∧
    ((s.SwapActorData i j).recOf h).live = (s.recOf h).live ∧
    ((s.SwapActorData i j).recOf h).category = (s.recOf h).category := by
  rw [swap_recOf s i j h (A.slot_handle_lt i hi) (A.slot_handle_lt j hj)]
  by_cases hh2 : h = s.slotHandle j
  · rw [if_pos hh2]
    have hidx : (s.recOf h).index = j := by
      by_contra hne
      exact slot_inj s A (s.recOf h).index j (A.live_index_lt h hlt hlive) hj hne
        (by rw [A.live_slot h hlt hlive, hh2])
    refine ⟨?_, rfl, rfl⟩
    show i = transposeIdx i j (s.recOf h).index
    rw [hidx, transposeIdx_right]
  · by_cases hh1 : h = s.slotHandle i
    · rw [if_neg hh2, if_pos hh1]
      have hidx : (s.recOf h).index = i := by
        by_contra hne
        exact slot_inj s A (s.recOf h).index i (A.live_index_lt h hlt hlive) hi hne
          (by rw [A.live_slot h hlt hlive, hh1])
      refine ⟨?_, rfl, rfl⟩
      show j = transposeIdx i j (s.recOf h).index
      rw [hidx, transposeIdx_left]
    · rw [if_neg hh2, if_neg hh1]
      have hpi : (s.recOf h).index ≠ i := by
        intro hip
        exact hh1 ((A.live_slot h hlt hlive).symm.trans (by rw [hip]))
      have hpj : (s.recOf h).index ≠ j := by
        intro hjp
        exact hh2 ((A.live_slot h hlt hlive).symm.trans (by rw [hjp]))
      exact ⟨(transposeIdx_ne _ _ _ hpi hpj).symm, rfl, rfl⟩

/-- A swap of two in-range slots preserves the alignment invariant. -/
theorem align_swap (s : FLocalSimulation) (i j : Nat) (A : s.Align)
    (hi : i < s.actorHandles.length) (hj : j < s.actorHandles.length) :
    (s.SwapActorData i j).Align := by
  obtain ⟨hLah, hLac, hLrb, hLsb, hLpa, hLhr⟩ := swap_lengths s i j
  obtain ⟨hcs, hck, hca⟩ := swap_counts s i j
  refine ⟨?_, ?_, ?_, ?_, ?_, ?_, ?_, ?_, ?_, ?_⟩
  · rw [hLah, hLac, A.len_actors]
  · rw [hLah, hLrb, A.len_rigid]
  · rw [hLah, hLsb, A.len_solver]
  · rw [hLah, hLpa, A.len_pending]
  · rw [hLah, hcs, hck]
    exact A.counts_le
  · intro k hk
    rw [hLah] at hk
    rw [hLhr, swap_slotHandle s i j k hi hj]
    exact A.slot_handle_lt _ (transposeIdx_lt i j k _ hi hj hk)
  · intro k hk
    rw [hLah] at hk
    rw [swap_slot_rec s i j k A hi hj hk]
    exact A.slot_live _ (transposeIdx_lt i j k _ hi hj hk)
  · intro k hk
    rw [hLah] at hk
    rw [swap_slot_rec s i j k A hi hj hk]
  · intro h hlt hlive
    rw [hLhr] at hlt
    rw [hLah]
    rw [swap_recOf s i j h (A.slot_handle_lt i hi) (A.slot_handle_lt j hj)] at hlive ⊢
    split_ifs at hlive ⊢ with hc1 hc2
    · exact hi
    · exact hj
    · exact A.live_index_lt h hlt hlive
  · intro h hlt hlive
    rw [hLhr] at hlt
    have hlive' : (s.recOf h).live = true := by
      rw [swap_recOf s i j h (A.slot_handle_lt i hi) (A.slot_handle_lt j hj)] at hlive
      split_ifs at hlive <;> exact hlive
    obtain ⟨hidx, -, -⟩ := swap_recOf_live s i j h A hi hj hlt hlive'
    rw [hidx, swap_slotHandle s i j _ hi hj, transposeIdx_invol]
    exact A.live_slot h hlt hlive'

theorem append_alen (s : FLocalSimulation) (cat : ECreateActorType) (init : ActorInit) :
    (s.appendActor cat init).actorHandles.length = s.actorHandles.length + 1 := by
  show (s.actorHandles ++ [s.handleRecs.length]).length = _
  simp

theorem append_rlen (s : FLocalSimulation) (cat : ECreateActorType) (init : ActorInit) :
    (s.appendActor cat init).handleRecs.length = s.handleRecs.length + 1 := by
  show (s.handleRecs ++ [_]).length = _
  simp

theorem append_slotHandle_lt (s : FLocalSimulation) (cat : ECreateActorType)
    (init : ActorInit) (k : Nat) (hk : k < s.actorHandles.length) :
    (s.appendActor cat init).slotHandle k = s.slotHandle k := by
  show (s.actorHandles ++ [s.handleRecs.length]).getD k 0 = s.actorHandles.getD k 0
  exact getD_append_lt _ _ _ _ hk

theorem append_slotHandle_last (s : FLocalSimulation) (cat : ECreateActorType)
    (init : ActorInit) :
    (s.appendActor cat init).slotHandle s.actorHandles.length = s.handleRecs.length := by
  show (s.actorHandles ++ [s.handleRecs.length]).getD s.actorHandles.length 0 = _
  exact getD_append_last _ _ _

theorem append_recOf_lt (s : FLocalSimulation) (cat : ECreateActorType)
    (init : ActorInit) (h : Nat) (hh : h < s.handleRecs.length) :
    (s.appendActor cat init).recOf h = s.recOf h := by
  show (s.handleRecs ++ [(⟨s.actorHandles.length, cat, true⟩ : HandleRec)]).getD h default
    = s.handleRecs.getD h default
  exact getD_append_lt _ _ _ _ hh

theorem append_recOf_last (s : FLocalSimulation) (cat : ECreateActorType)
    (init : ActorInit) :
    (s.appendActor cat init).recOf s.handleRecs.length
      = ⟨s.actorHandles.length, cat, true⟩ := by
  show (s.handleRecs ++ [(⟨s.actorHandles.length, cat, true⟩ : HandleRec)]).getD
    s.handleRecs.length default = _
  exact getD_append_last _ _ _

/-- The lock-step append preserves alignment: the new slot and the new
handle record name each other, everything else is untouched. -/
theorem align_append (s : FLocalSimulation) (A : s.Align) (cat : ECreateActorType)
    (init : ActorInit) : (s.appendActor cat init).Align := by
  refine ⟨?_, ?_, ?_, ?_, ?_, ?_, ?_, ?_, ?_, ?_⟩
  · show (s.actors ++ [init.actor]).length = (s.actorHandles ++ [s.handleRecs.length]).length
    simp [A.len_actors]
  · show (s.rigidBodiesData ++ [init.body]).length
      = (s.actorHandles ++ [s.handleRecs.length]).length
    simp [A.len_rigid]
  · show (s.solverBodiesData ++ [default]).length
      = (s.actorHandles ++ [s.handleRecs.length]).length
    simp [A.len_solver]
  · show (s.pendingAcceleration ++ [Vec3.zero]).length
      = (s.actorHandles ++ [s.handleRecs.length]).length
    simp [A.len_pending]
  · show s.numSimulatedBodies + s.numKinematicBodies
      ≤ (s.actorHandles ++ [s.handleRecs.length]).length
    have := A.counts_le
    simp
    omega
  · intro k hk
    rw [append_alen] at hk
    rw [append_rlen]
    by_cases hkL : k < s.actorHandles.length
    · rw [append_slotHandle_lt s cat init k hkL]
      have := A.slot_handle_lt k hkL
      omega
    · have hkeq : k = s.actorHandles.length := by omega
      rw [hkeq, append_slotHandle_last]
      omega
  · intro k hk
    rw [append_alen] at hk
    by_cases hkL : k < s.actorHandles.length
    · rw [append_slotHandle_lt s cat init k hkL,
        append_recOf_lt s cat init _ (A.slot_handle_lt k hkL)]
      exact A.slot_live k hkL
    · have hkeq : k = s.actorHandles.length := by omega
      rw [hkeq, append_slotHandle_last, append_recOf_last]
  · intro k hk
    rw [append_alen] at hk
    by_cases hkL : k < s.actorHandles.length
    · rw [append_slotHandle_lt s cat init k hkL,
        append_recOf_lt s cat init _ (A.slot_handle_lt k hkL)]
      exact A.slot_index k hkL
    · have hkeq : k = s.actorHandles.length := by omega
      rw [hkeq, append_slotHandle_last, append_recOf_last]
  · intro h hh hlive
    rw [append_rlen] at hh
    rw [append_alen]
    by_cases hhR : h < s.handleRecs.length
    · rw [append_recOf_lt s cat init h hhR] at hlive ⊢
      have := A.live_index_lt h hhR hlive
      omega
    · have hheq : h = s.handleRecs.length := by omega
      rw [hheq, append_recOf_last]
      show s.actorHandles.length < s.actorHandles.length + 1
      omega
  · intro h hh hlive
    rw [append_rlen] at hh
    by_cases hhR : h < s.handleRecs.length
    · rw [append_recOf_lt s cat init h hhR] at hlive ⊢
      rw [append_slotHandle_lt s cat init _ (A.live_index_lt h hhR hlive)]
      exact A.live_slot h hhR hlive
    · have hheq : h = s.handleRecs.length := by omega
      rw [hheq, append_recOf_last]
      show (s.appendActor cat init).slotHandle s.actorHandles.length = s.handleRecs.length
      exact append_slotHandle_last s cat init

/-- Static creation preserves the full registry invariant. -/
theorem WF_createStatic (s : FLocalSimulation) (W : s.WF) (init : ActorInit) :
    (s.CreateStaticActor init).WF := by
  have A1 := align_append s W.toAlign ECreateActorType.StaticActor init
  refine ⟨A1, ?_⟩
  intro k hk
  have hk' : k < (s.appendActor ECreateActorType.StaticActor init).actorHandles.length := hk
  rw [append_alen] at hk'
  show ((s.appendActor ECreateActorType.StaticActor init).recOf
      ((s.appendActor ECreateActorType.StaticActor init).slotHandle k)).category
    = (s.appendActor ECreateActorType.StaticActor init).categoryOf k
  by_cases hkL : k < s.actorHandles.length
  · rw [append_slotHandle_lt s _ init k hkL,
      append_recOf_lt s _ init _ (W.slot_handle_lt k hkL)]
    rw [W.slot_cat k hkL]
    rfl
  · have hkeq : k = s.actorHandles.length := by omega
    rw [hkeq, append_slotHandle_last, append_recOf_last]
    show ECreateActorType.StaticActor = categoryOf _ s.actorHandles.length
    have hc := W.counts_le
    unfold categoryOf
    split_ifs with h1 h2
    · exfalso
      have : (s.appendActor ECreateActorType.StaticActor init).numSimulatedBodies
          = s.numSimulatedBodies := rfl
      omega
    · exfalso
      have h3 : (s.appendActor ECreateActorType.StaticActor init).numSimulatedBodies
          = s.numSimulatedBodies := rfl
      have h4 : (s.appendActor ECreateActorType.StaticActor init).numKinematicBodies
          = s.numKinematicBodies := rfl
      omega
    · rfl

theorem categoryOf_eq (s : FLocalSimulation) (k S K : Nat)
    (hS : s.numSimulatedBodies = S) (hK : s.numKinematicBodies = K) :
    s.categoryOf k
      = if k < S then ECreateActorType.DynamicActor
        else if k < S + K then ECreateActorType.KinematicActor
        else ECreateActorType.StaticActor := by
  unfold categoryOf
  rw [hS, hK]

/-- The category behind a slot of the appended state: the new slot
carries the new category, old slots keep the partition category. -/
theorem append_slot_category (s : FLocalSimulation) (W : s.WF) (cat : ECreateActorType)
    (init : ActorInit) (m : Nat) (hm : m < s.actorHandles.length + 1) :
    ((s.appendActor cat init).recOf ((s.appendActor cat init).slotHandle m)).category
      = if m = s.actorHandles.length then cat else s.categoryOf m := by
  by_cases hmL : m < s.actorHandles.length
  · rw [append_slotHandle_lt s cat init m hmL,
      append_recOf_lt s cat init _ (W.slot_handle_lt m hmL), if_neg (by omega)]
    exact W.slot_cat m hmL
  · have hmeq : m = s.actorHandles.length := by omega
    rw [hmeq, append_slotHandle_last, append_recOf_last, if_pos rfl]

/-- Kinematic creation preserves the full registry invariant. -/
theorem WF_createKinematic (s : FLocalSimulation) (W : s.WF) (init : ActorInit) :
    (s.CreateKinematicActor init).WF := by
  have A1 := align_append s W.toAlign ECreateActorType.KinematicActor init
  have hb2 : s.numSimulatedBodies + s.numKinematicBodies
      < (s.appendActor ECreateActorType.KinematicActor init).actorHandles.length := by
    rw [append_alen]
    have := W.counts_le
    omega
  have hL : s.actorHandles.length
      < (s.appendActor ECreateActorType.KinematicActor init).actorHandles.length := by
    rw [append_alen]
    omega
  have A2 := align_swap _ (s.numSimulatedBodies + s.numKinematicBodies)
    s.actorHandles.length A1 hb2 hL
  refine ⟨⟨A2.len_actors, A2.len_rigid, A2.len_solver, A2.len_pending, ?_, A2.slot_handle_lt,
    A2.slot_live, A2.slot_index, A2.live_index_lt, A2.live_slot⟩, ?_⟩
  · show s.numSimulatedBodies + (s.numKinematicBodies + 1)
      ≤ ((s.appendActor ECreateActorType.KinematicActor init).SwapActorData
          (s.numSimulatedBodies + s.numKinematicBodies)
          s.actorHandles.length).actorHandles.length
    rw [(swap_lengths _ _ _).1, append_alen]
    have := W.counts_le
    omega
  · intro k hk
    have hk2 : k < ((s.appendActor ECreateActorType.KinematicActor init).SwapActorData
        (s.numSimulatedBodies + s.numKinematicBodies)
        s.actorHandles.length).actorHandles.length := hk
    rw [(swap_lengths _ _ _).1, append_alen] at hk2
    have hk1 : k < (s.appendActor ECreateActorType.KinematicActor init).actorHandles.length := by
      rw [append_alen]
      exact hk2
    show (((s.appendActor ECreateActorType.KinematicActor init).SwapActorData
        (s.numSimulatedBodies + s.numKinematicBodies) s.actorHandles.length).recOf
          (((s.appendActor ECreateActorType.KinematicActor init).SwapActorData
            (s.numSimulatedBodies + s.numKinematicBodies)
            s.actorHandles.length).slotHandle k)).category
      = (s.CreateKinematicActor init).categoryOf k
    rw [swap_slot_rec _ _ _ k A1 hb2 hL hk1]
    show ((s.appendActor ECreateActorType.KinematicActor init).recOf
        ((s.appendActor ECreateActorType.KinematicActor init).slotHandle
          (transposeIdx (s.numSimulatedBodies + s.numKinematicBodies)
            s.actorHandles.length k))).category
      = (s.CreateKinematicActor init).categoryOf k
    rw [append_slot_category s W _ init _
      (by rw [← append_alen s ECreateActorType.KinematicActor init]
          exact transposeIdx_lt _ _ _ _ hb2 hL hk1)]
    rw [categoryOf_eq s _ s.numSimulatedBodies s.numKinematicBodies rfl rfl]
    rw [categoryOf_eq (s.CreateKinematicActor init) k s.numSimulatedBodies
      (s.numKinematicBodies + 1) rfl rfl]
    have hc := W.counts_le
    unfold transposeIdx
    split_ifs <;> first | rfl | (exfalso; omega)

/-- Dynamic creation preserves the full registry invariant. -/
theorem WF_createDynamic (s : FLocalSimulation) (W : s.WF) (init : ActorInit) :
    (s.CreateDynamicActor init).WF := by
  have A1 := align_append s W.toAlign ECreateActorType.DynamicActor init
  have hb2 : s.numSimulatedBodies + s.numKinematicBodies
      < (s.appendActor ECreateActorType.DynamicActor init).actorHandles.length := by
    rw [append_alen]
    have := W.counts_le
    omega
  have hL : s.actorHandles.length
      < (s.appendActor ECreateActorType.DynamicActor init).actorHandles.length := by
    rw [append_alen]
    omega
  have A2 := align_swap _ (s.numSimulatedBodies + s.numKinematicBodies)
    s.actorHandles.length A1 hb2 hL
  have hb1' : s.numSimulatedBodies
      < ((s.appendActor ECreateActorType.DynamicActor init).SwapActorData
          (s.numSimulatedBodies + s.numKinematicBodies)
          s.actorHandles.length).actorHandles.length := by
    rw [(swap_lengths _ _ _).1, append_alen]
    have := W.counts_le
    omega
  have hb2' : s.numSimulatedBodies + s.numKinematicBodies
      < ((s.appendActor ECreateActorType.DynamicActor init).SwapActorData
          (s.numSimulatedBodies + s.numKinematicBodies)
          s.actorHandles.length).actorHandles.length := by
    rw [(swap_lengths _ _ _).1, append_alen]
    have := W.counts_le
    omega
  have A3 := align_swap _ s.numSimulatedBodies
    (s.numSimulatedBodies + s.numKinematicBodies) A2 hb1' hb2'
  refine ⟨⟨A3.len_actors, A3.len_rigid, A3.len_solver, A3.len_pending, ?_, A3.slot_handle_lt,
    A3.slot_live, A3.slot_index, A3.live_index_lt, A3.live_slot⟩, ?_⟩
  · show (s.numSimulatedBodies + 1) + s.numKinematicBodies
      ≤ (((s.appendActor ECreateActorType.DynamicActor init).SwapActorData
          (s.numSimulatedBodies + s.numKinematicBodies) s.actorHandles.length).SwapActorData
            s.numSimulatedBodies
            (s.numSimulatedBodies + s.numKinematicBodies)).actorHandles.length
    rw [(swap_lengths _ _ _).1, (swap_lengths _ _ _).1, append_alen]
    have := W.counts_le
    omega
  · intro k hk
    have hk3 : k < (((s.appendActor ECreateActorType.DynamicActor init).SwapActorData
        (s.numSimulatedBodies + s.numKinematicBodies) s.actorHandles.length).SwapActorData
          s.numSimulatedBodies
          (s.numSimulatedBodies + s.numKinematicBodies)).actorHandles.length := hk
    rw [(swap_lengths _ _ _).1, (swap_lengths _ _ _).1, append_alen] at hk3
    have hk2 : k < ((s.appendActor ECreateActorType.DynamicActor init).SwapActorData
        (s.numSimulatedBodies + s.numKinematicBodies)
        s.actorHandles.length).actorHandles.length := by
      rw [(swap_lengths _ _ _).1, append_alen]
      exact hk3
    have hτ2 : transposeIdx s.numSimulatedBodies
        (s.numSimulatedBodies + s.numKinematicBodies) k
        < (s.appendActor ECreateActorType.DynamicActor init).actorHandles.length := by
      rw [append_alen]
      have h1 : transposeIdx s.numSimulatedBodies (s.numSimulatedBodies + s.numKinematicBodies) k
          < ((s.appendActor ECreateActorType.DynamicActor init).SwapActorData
              (s.numSimulatedBodies + s.numKinematicBodies)
              s.actorHandles.length).actorHandles.length :=
        transposeIdx_lt _ _ _ _ hb1' hb2' hk2
      rw [(swap_lengths _ _ _).1, append_alen] at h1
      exact h1
    show ((((s.appendActor ECreateActorType.DynamicActor init).SwapActorData
        (s.numSimulatedBodies + s.numKinematicBodies) s.actorHandles.length).SwapActorData
          s.numSimulatedBodies (s.numSimulatedBodies + s.numKinematicBodies)).recOf
          ((((s.appendActor ECreateActorType.DynamicActor init).SwapActorData
            (s.numSimulatedBodies + s.numKinematicBodies)
            s.actorHandles.length).SwapActorData s.numSimulatedBodies
              (s.numSimulatedBodies + s.numKinematicBodies)).slotHandle k)).category
      = (s.CreateDynamicActor init).categoryOf k
    rw [swap_slot_rec _ _ _ k A2 hb1' hb2' hk2]
    show (((s.appendActor ECreateActorType.DynamicActor init).SwapActorData
        (s.numSimulatedBodies + s.numKinematicBodies) s.actorHandles.length).recOf
          (((s.appendActor ECreateActorType.DynamicActor init).SwapActorData
            (s.numSimulatedBodies + s.numKinematicBodies) s.actorHandles.length).slotHandle
              (transposeIdx s.numSimulatedBodies
                (s.numSimulatedBodies + s.numKinematicBodies) k))).category
      = (s.CreateDynamicActor init).categoryOf k
    rw [swap_slot_rec _ _ _ _ A1 hb2 hL hτ2]
    show ((s.appendActor ECreateActorType.DynamicActor init).recOf
        ((s.appendActor ECreateActorType.DynamicActor init).slotHandle
          (transposeIdx (s.numSimulatedBodies + s.numKinematicBodies) s.actorHandles.length
            (transposeIdx s.numSimulatedBodies
              (s.numSimulatedBodies + s.numKinematicBodies) k)))).category
      = (s.CreateDynamicActor init).categoryOf k
    rw [append_slot_category s W _ init _
      (by rw [← append_alen s ECreateActorType.DynamicActor init]
          exact transposeIdx_lt _ _ _ _ hb2 hL
            (by rw [append_alen]; exact hτ2.trans_eq (append_alen s _ init)))]
    rw [categoryOf_eq s _ s.numSimulatedBodies s.numKinematicBodies rfl rfl]
    rw [categoryOf_eq (s.CreateDynamicActor init) k (s.numSimulatedBodies + 1)
      s.numKinematicBodies rfl rfl]
    have hc := W.counts_le
    unfold transposeIdx
    split_ifs <;> first | rfl | (exfalso; omega)

theorem getElem?_handleRecs (s : FLocalSimulation) (h : Nat) (hh : h < s.handleRecs.length) :
    s.handleRecs[h]? = some (s.recOf h) := by
  rw [List.getElem?_eq_getElem hh]
  unfold recOf
  rw [getD_eq_getElem?, List.getElem?_eq_getElem hh]
  rfl

theorem pop_alen (t : FLocalSimulation) (h : Nat) :
    (t.popActor h).actorHandles.length = t.actorHandles.length - 1 := by
  show t.actorHandles.dropLast.length = _
  simp

theorem pop_slotHandle (t : FLocalSimulation) (h : Nat) (k : Nat)
    (hk : k < t.actorHandles.length - 1) :
    (t.popActor h).slotHandle k = t.slotHandle k := by
  show t.actorHandles.dropLast.getD k 0 = t.actorHandles.getD k 0
  exact getD_dropLast _ _ _ hk

theorem pop_recOf_ne (t : FLocalSimulation) (h h' : Nat) (hne : h' ≠ h) :
    (t.popActor h).recOf h' = t.recOf h' := by
  show (modifyL t.handleRecs h _).getD h' default = t.handleRecs.getD h' default
  exact getD_modifyL_ne _ _ _ _ _ hne

theorem pop_recOf_self (t : FLocalSimulation) (h : Nat) (hh : h < t.handleRecs.length) :
    (t.popActor h).recOf h = { t.recOf h with live := false } := by
  show (modifyL t.handleRecs h _).getD h default = _
  rw [getD_modifyL_self _ _ _ _ hh]
  rfl

/-- Popping the last slot, whose handle is the one being retired,
restores the full invariant for any category counts that fit the
shrunken storage and match the remaining slots. -/
theorem WF_pop (t : FLocalSimulation) (h : Nat) (A : t.Align)
    (hh : h < t.handleRecs.length)
    (hidx : (t.recOf h).index = t.actorHandles.length - 1)
    (hlive : (t.recOf h).live = true)
    (S' K' : Nat)
    (hcounts : S' + K' ≤ t.actorHandles.length - 1)
    (hcat : ∀ k, k < t.actorHandles.length - 1 →
      (t.recOf (t.slotHandle k)).category
        = if k < S' then ECreateActorType.DynamicActor
          else if k < S' + K' then ECreateActorType.KinematicActor
          else ECreateActorType.StaticActor) :
    (popActor { t with numSimulatedBodies := S', numKinematicBodies := K' } h).WF := by
  have hslot_ne : ∀ k, k < t.actorHandles.length - 1 → t.slotHandle k ≠ h := by
    intro k hk heq
    have hik := A.slot_index k (by omega)
    rw [heq, hidx] at hik
    omega
  have halen : (popActor { t with numSimulatedBodies := S', numKinematicBodies := K' }
      h).actorHandles.length = t.actorHandles.length - 1 := pop_alen _ h
  have hsh : ∀ k, k < t.actorHandles.length - 1 →
      (popActor { t with numSimulatedBodies := S', numKinematicBodies := K' } h).slotHandle k
        = t.slotHandle k := fun k hk => pop_slotHandle _ h k hk
  have hrne : ∀ h', h' ≠ h →
      (popActor { t with numSimulatedBodies := S', numKinematicBodies := K' } h).recOf h'
        = t.recOf h' := fun h' hne => pop_recOf_ne _ h h' hne
  have hrlen : (popActor { t with numSimulatedBodies := S', numKinematicBodies := K' }
      h).handleRecs.length = t.handleRecs.length := by
    show (modifyL t.handleRecs h _).length = _
    exact length_modifyL _ _ _
  refine ⟨⟨?_, ?_, ?_, ?_, ?_, ?_, ?_, ?_, ?_, ?_⟩, ?_⟩
  · show t.actors.dropLast.length = t.actorHandles.dropLast.length
    simp [A.len_actors]
  · show t.rigidBodiesData.dropLast.length = t.actorHandles.dropLast.length
    simp [A.len_rigid]
  · show t.solverBodiesData.dropLast.length = t.actorHandles.dropLast.length
    simp [A.len_solver]
  · show t.pendingAcceleration.dropLast.length = t.actorHandles.dropLast.length
    simp [A.len_pending]
  · rw [halen]
    exact hcounts
  · intro k hk
    rw [halen] at hk
    rw [hsh k hk, hrlen]
    exact A.slot_handle_lt k (by omega)
  · intro k hk
    rw [halen] at hk
    rw [hsh k hk, hrne _ (hslot_ne k hk)]
    exact A.slot_live k (by omega)
  · intro k hk
    rw [halen] at hk
    rw [hsh k hk, hrne _ (hslot_ne k hk)]
    exact A.slot_index k (by omega)
  · intro h' hh' hlive'
    rw [hrlen] at hh'
    rw [halen]
    by_cases hne : h' = h
    · rw [hne, pop_recOf_self { t with numSimulatedBodies := S', numKinematicBodies := K' }
        h hh] at hlive'
      cases hlive'
    · rw [hrne _ hne] at hlive' ⊢
      have hlt := A.live_index_lt h' hh' hlive'
      have hne' : (t.recOf h').index ≠ t.actorHandles.length - 1 := by
        intro hcontra
        have hs1 := A.live_slot h' hh' hlive'
        have hs2 := A.live_slot h hh hlive
        rw [hcontra] at hs1
        rw [hidx] at hs2
        rw [hs2] at hs1
        exact hne hs1.symm
      omega
  · intro h' hh' hlive'
    rw [hrlen] at hh'
    by_cases hne : h' = h
    · rw [hne, pop_recOf_self { t with numSimulatedBodies := S', numKinematicBodies := K' }
        h hh] at hlive'
      cases hlive'
    · rw [hrne _ hne] at hlive' ⊢
      have hlt := A.live_index_lt h' hh' hlive'
      have hne' : (t.recOf h').index ≠ t.actorHandles.length - 1 := by
        intro hcontra
        have hs1 := A.live_slot h' hh' hlive'
        have hs2 := A.live_slot h hh hlive
        rw [hcontra] at hs1
        rw [hidx] at hs2
        rw [hs2] at hs1
        exact hne hs1.symm
      rw [hsh _ (by omega)]
      exact A.live_slot h' hh' hlive'
  · intro k hk
    rw [halen] at hk
    rw [hsh k hk, hrne _ (hslot_ne k hk), hcat k hk]
    rw [categoryOf_eq _ k S' K' rfl rfl]

set_option maxHeartbeats 1000000 in
/-- Partition arithmetic for dynamic removal: the three boundary swaps
relabel categories exactly as the shrunken dynamic partition demands. -/
theorem remove_cat_dynamic (S K L p k : Nat) (hplt : p < S) (hc : S + K ≤ L)
    (hk : k < L - 1) :
    (if transposeIdx p (S - 1) (transposeIdx (S - 1) (S + K - 1)
        (transposeIdx (S + K - 1) (L - 1) k)) < S then ECreateActorType.DynamicActor
      else if transposeIdx p (S - 1) (transposeIdx (S - 1) (S + K - 1)
          (transposeIdx (S + K - 1) (L - 1) k)) < S + K then ECreateActorType.KinematicActor
      else ECreateActorType.StaticActor)
      = if k < S - 1 then ECreateActorType.DynamicActor
        else if k < (S - 1) + K then ECreateActorType.KinematicActor
        else ECreateActorType.StaticActor := by
  unfold transposeIdx
  split_ifs <;> first | rfl | (exfalso; omega)

set_option maxHeartbeats 1000000 in
/-- Partition arithmetic for kinematic removal. -/
theorem remove_cat_kinematic (S K L p k : Nat) (hpk1 : S ≤ p) (hpk2 : p < S + K)
    (hc : S + K ≤ L) (hk : k < L - 1) :
    (if transposeIdx p (S + K - 1) (transposeIdx (S + K - 1) (L - 1) k) < S then
        ECreateActorType.DynamicActor
      else if transposeIdx p (S + K - 1) (transposeIdx (S + K - 1) (L - 1) k) < S + K then
        ECreateActorType.KinematicActor
      else ECreateActorType.StaticActor)
      = if k < S then ECreateActorType.DynamicActor
        else if k < S + (K - 1) then ECreateActorType.KinematicActor
        else ECreateActorType.StaticActor := by
  unfold transposeIdx
  split_ifs <;> first | rfl | (exfalso; omega)

set_option maxHeartbeats 1000000 in
/-- Partition arithmetic for static removal. -/
theorem remove_cat_static (S K L p k : Nat) (hpk : S + K ≤ p) (hpL : p < L)
    (hc : S + K ≤ L) (hk : k < L - 1) :
    (if transposeIdx p (L - 1) k < S then ECreateActorType.DynamicActor
      else if transposeIdx p (L - 1) k < S + K then ECreateActorType.KinematicActor
      else ECreateActorType.StaticActor)
      = if k < S then ECreateActorType.DynamicActor
        else if k < S + K then ECreateActorType.KinematicActor
        else ECreateActorType.StaticActor := by
  unfold transposeIdx
  split_ifs <;> first | rfl | (exfalso; omega)

set_option maxHeartbeats 2000000 in
/-- Removal through any handle preserves the full registry invariant. -/
theorem WF_removeActor (s : FLocalSimulation) (W : s.WF) (h : Nat) :
    (s.RemoveActor h).WF := by
  by_cases hh : h < s.handleRecs.length
  · have hsome := getElem?_handleRecs s h hh
    have hre : s.RemoveActor h = s.removeActorRec h (s.recOf h) := by
      unfold RemoveActor
      rw [hsome]
    rw [hre]
    by_cases hlive : (s.recOf h).live = true
    · have hp := W.live_index_lt h hh hlive
      have hsl := W.live_slot h hh hlive
      have hcatp : (s.recOf h).category = s.categoryOf (s.recOf h).index := by
        have hsc := W.slot_cat (s.recOf h).index hp
        rw [hsl] at hsc
        exact hsc
      have hcW := W.counts_le
      have hnotfalse : ¬((s.recOf h).live = false) := by simp [hlive]
      cases hcE : (s.recOf h).category with
      | DynamicActor =>
        have hplt : (s.recOf h).index < s.numSimulatedBodies := by
          rw [hcE, categoryOf_eq s _ s.numSimulatedBodies s.numKinematicBodies rfl rfl] at hcatp
          split_ifs at hcatp with h1 h2
          all_goals first | exact h1 | simp at hcatp
        have hre2 : s.removeActorRec h (s.recOf h)
            = popActor
              { ((s.SwapActorData (s.recOf h).index (s.numSimulatedBodies - 1)).SwapActorData
                  (s.numSimulatedBodies - 1)
                  (s.numSimulatedBodies + s.numKinematicBodies - 1)).SwapActorData
                  (s.numSimulatedBodies + s.numKinematicBodies - 1)
                  (s.actorHandles.length - 1)
                with numSimulatedBodies := s.numSimulatedBodies - 1 } h := by
          unfold removeActorRec
          rw [if_neg hnotfalse, hcE]
        rw [hre2]
        set s1 := s.SwapActorData (s.recOf h).index (s.numSimulatedBodies - 1) with hs1
        set s2 := s1.SwapActorData (s.numSimulatedBodies - 1)
          (s.numSimulatedBodies + s.numKinematicBodies - 1) with hs2
        set s3 := s2.SwapActorData (s.numSimulatedBodies + s.numKinematicBodies - 1)
          (s.actorHandles.length - 1) with hs3
        have hS1 : s.numSimulatedBodies - 1 < s.actorHandles.length := by omega
        have A1 : s1.Align := align_swap s (s.recOf h).index (s.numSimulatedBodies - 1)
          W.toAlign hp hS1
        have hL1 : s1.actorHandles.length = s.actorHandles.length :=
          (swap_lengths s (s.recOf h).index (s.numSimulatedBodies - 1)).1
        have hR1 : s1.handleRecs.length = s.handleRecs.length :=
          (swap_lengths s (s.recOf h).index (s.numSimulatedBodies - 1)).2.2.2.2.2
        have hb1 : s.numSimulatedBodies - 1 < s1.actorHandles.length := by
          rw [hL1]
          omega
        have hb2 : s.numSimulatedBodies + s.numKinematicBodies - 1
            < s1.actorHandles.length := by
          rw [hL1]
          omega
        have A2 : s2.Align := align_swap s1 (s.numSimulatedBodies - 1)
          (s.numSimulatedBodies + s.numKinematicBodies - 1) A1 hb1 hb2
        have hL2 : s2.actorHandles.length = s1.actorHandles.length :=
          (swap_lengths s1 (s.numSimulatedBodies - 1)
            (s.numSimulatedBodies + s.numKinematicBodies - 1)).1
        have hR2 : s2.handleRecs.length = s1.handleRecs.length :=
          (swap_lengths s1 (s.numSimulatedBodies - 1)
            (s.numSimulatedBodies + s.numKinematicBodies - 1)).2.2.2.2.2
        have hc1 : s.numSimulatedBodies + s.numKinematicBodies - 1
            < s2.actorHandles.length := by
          rw [hL2, hL1]
          omega
        have hc2 : s.actorHandles.length - 1 < s2.actorHandles.length := by
          rw [hL2, hL1]
          omega
        have A3 : s3.Align := align_swap s2 (s.numSimulatedBodies + s.numKinematicBodies - 1)
          (s.actorHandles.length - 1) A2 hc1 hc2
        have hL3 : s3.actorHandles.length = s2.actorHandles.length :=
          (swap_lengths s2 (s.numSimulatedBodies + s.numKinematicBodies - 1)
            (s.actorHandles.length - 1)).1
        have hR3 : s3.handleRecs.length = s2.handleRecs.length :=
          (swap_lengths s2 (s.numSimulatedBodies + s.numKinematicBodies - 1)
            (s.actorHandles.length - 1)).2.2.2.2.2
        have hh1 : h < s1.handleRecs.length := by
          rw [hR1]
          exact hh
        have hh2 : h < s2.handleRecs.length := by
          rw [hR2, hR1]
          exact hh
        have hh3 : h < s3.handleRecs.length := by
          rw [hR3, hR2, hR1]
          exact hh
        obtain ⟨hi1, hl1, -⟩ := swap_recOf_live s (s.recOf h).index
          (s.numSimulatedBodies - 1) h W.toAlign hp hS1 hh hlive
        rw [transposeIdx_left] at hi1
        rw [hlive] at hl1
        obtain ⟨hi2, hl2, -⟩ := swap_recOf_live s1 (s.numSimulatedBodies - 1)
          (s.numSimulatedBodies + s.numKinematicBodies - 1) h A1 hb1 hb2 hh1 hl1
        rw [hi1, transposeIdx_left] at hi2
        rw [hl1] at hl2
        obtain ⟨hi3, hl3, -⟩ := swap_recOf_live s2
          (s.numSimulatedBodies + s.numKinematicBodies - 1)
          (s.actorHandles.length - 1) h A2 hc1 hc2 hh2 hl2
        rw [hi2, transposeIdx_left] at hi3
        rw [hl2] at hl3
        have hidx3 : (s3.recOf h).index = s3.actorHandles.length - 1 := by
          rw [hi3, hL3, hL2, hL1]
        have hcat3 : ∀ k, k < s3.actorHandles.length - 1 →
            (s3.recOf (s3.slotHandle k)).category
              = if k < s.numSimulatedBodies - 1 then ECreateActorType.DynamicActor
                else if k < (s.numSimulatedBodies - 1) + s.numKinematicBodies then
                  ECreateActorType.KinematicActor
                else ECreateActorType.StaticActor := by
          intro k hk
          rw [hL3, hL2, hL1] at hk
          have hk2 : k < s2.actorHandles.length := by
            rw [hL2, hL1]
            omega
          have hτ3 : transposeIdx (s.numSimulatedBodies + s.numKinematicBodies - 1)
              (s.actorHandles.length - 1) k < s1.actorHandles.length := by
            have := transposeIdx_lt (s.numSimulatedBodies + s.numKinematicBodies - 1)
              (s.actorHandles.length - 1) k s2.actorHandles.length hc1 hc2 hk2
            rw [hL2] at this
            exact this
          have hτ23 : transposeIdx (s.numSimulatedBodies - 1)
              (s.numSimulatedBodies + s.numKinematicBodies - 1)
              (transposeIdx (s.numSimulatedBodies + s.numKinematicBodies - 1)
                (s.actorHandles.length - 1) k) < s.actorHandles.length := by
            have := transposeIdx_lt (s.numSimulatedBodies - 1)
              (s.numSimulatedBodies + s.numKinematicBodies - 1) _
              s1.actorHandles.length hb1 hb2 hτ3
            rw [hL1] at this
            exact this
          rw [hs3, swap_slot_rec s2 (s.numSimulatedBodies + s.numKinematicBodies - 1)
            (s.actorHandles.length - 1) k A2 hc1 hc2 hk2]
          show (s2.recOf (s2.slotHandle
              (transposeIdx (s.numSimulatedBodies + s.numKinematicBodies - 1)
                (s.actorHandles.length - 1) k))).category = _
          rw [hs2, swap_slot_rec s1 (s.numSimulatedBodies - 1)
            (s.numSimulatedBodies + s.numKinematicBodies - 1) _ A1 hb1 hb2 hτ3]
          show (s1.recOf (s1.slotHandle
              (transposeIdx (s.numSimulatedBodies - 1)
                (s.numSimulatedBodies + s.numKinematicBodies - 1)
                (transposeIdx (s.numSimulatedBodies + s.numKinematicBodies - 1)
                  (s.actorHandles.length - 1) k)))).category = _
          rw [hs1, swap_slot_rec s (s.recOf h).index (s.numSimulatedBodies - 1) _
            W.toAlign hp hS1 hτ23]
          show (s.recOf (s.slotHandle
              (transposeIdx (s.recOf h).index (s.numSimulatedBodies - 1)
                (transposeIdx (s.numSimulatedBodies - 1)
                  (s.numSimulatedBodies + s.numKinematicBodies - 1)
                  (transposeIdx (s.numSimulatedBodies + s.numKinematicBodies - 1)
                    (s.actorHandles.length - 1) k))))).category = _
          rw [W.slot_cat _ (transposeIdx_lt _ _ _ _ hp hS1 hτ23)]
          rw [categoryOf_eq s _ s.numSimulatedBodies s.numKinematicBodies rfl rfl]
          exact remove_cat_dynamic s.numSimulatedBodies s.numKinematicBodies
            s.actorHandles.length (s.recOf h).index k hplt hcW hk
        exact WF_pop s3 h A3 hh3 hidx3 hl3 (s.numSimulatedBodies - 1) s.numKinematicBodies
          (by rw [hL3, hL2, hL1]; omega) hcat3
      | KinematicActor =>
        have hpband : s.numSimulatedBodies ≤ (s.recOf h).index ∧
            (s.recOf h).index < s.numSimulatedBodies + s.numKinematicBodies := by
          rw [hcE, categoryOf_eq s _ s.numSimulatedBodies s.numKinematicBodies rfl rfl] at hcatp
          split_ifs at hcatp with h1 h2
          all_goals first | omega | simp at hcatp
        have hre2 : s.removeActorRec h (s.recOf h)
            = popActor
              { (s.SwapActorData (s.recOf h).index
                  (s.numSimulatedBodies + s.numKinematicBodies - 1)).SwapActorData
                  (s.numSimulatedBodies + s.numKinematicBodies - 1)
                  (s.actorHandles.length - 1)
                with numKinematicBodies := s.numKinematicBodies - 1 } h := by
          unfold removeActorRec
          rw [if_neg hnotfalse, hcE]
        rw [hre2]
        set s1 := s.SwapActorData (s.recOf h).index
          (s.numSimulatedBodies + s.numKinematicBodies - 1) with hs1
        set s2 := s1.SwapActorData (s.numSimulatedBodies + s.numKinematicBodies - 1)
          (s.actorHandles.length - 1) with hs2
        have hSK1 : s.numSimulatedBodies + s.numKinematicBodies - 1
            < s.actorHandles.length := by omega
        have A1 : s1.Align := align_swap s (s.recOf h).index
          (s.numSimulatedBodies + s.numKinematicBodies - 1) W.toAlign hp hSK1
        have hL1 : s1.actorHandles.length = s.actorHandles.length :=
          (swap_lengths s (s.recOf h).index
            (s.numSimulatedBodies + s.numKinematicBodies - 1)).1
        have hR1 : s1.handleRecs.length = s.handleRecs.length :=
          (swap_lengths s (s.recOf h).index
            (s.numSimulatedBodies + s.numKinematicBodies - 1)).2.2.2.2.2
        have hb1 : s.numSimulatedBodies + s.numKinematicBodies - 1
            < s1.actorHandles.length := by
          rw [hL1]
          omega
        have hb2 : s.actorHandles.length - 1 < s1.actorHandles.length := by
          rw [hL1]
          omega
        have A2 : s2.Align := align_swap s1
          (s.numSimulatedBodies + s.numKinematicBodies - 1)
          (s.actorHandles.length - 1) A1 hb1 hb2
        have hL2 : s2.actorHandles.length = s1.actorHandles.length :=
          (swap_lengths s1 (s.numSimulatedBodies + s.numKinematicBodies - 1)
            (s.actorHandles.length - 1)).1
        have hR2 : s2.handleRecs.length = s1.handleRecs.length :=
          (swap_lengths s1 (s.numSimulatedBodies + s.numKinematicBodies - 1)
            (s.actorHandles.length - 1)).2.2.2.2.2
        have hh1 : h < s1.handleRecs.length := by
          rw [hR1]
          exact hh
        have hh2 : h < s2.handleRecs.length := by
          rw [hR2, hR1]
          exact hh
        obtain ⟨hi1, hl1, -⟩ := swap_recOf_live s (s.recOf h).index
          (s.numSimulatedBodies + s.numKinematicBodies - 1) h W.toAlign hp hSK1 hh hlive
        rw [transposeIdx_left] at hi1
        rw [hlive] at hl1
        obtain ⟨hi2, hl2, -⟩ := swap_recOf_live s1
          (s.numSimulatedBodies + s.numKinematicBodies - 1)
          (s.actorHandles.length - 1) h A1 hb1 hb2 hh1 hl1
        rw [hi1, transposeIdx_left] at hi2
        rw [hl1] at hl2
        have hidx2 : (s2.recOf h).index = s2.actorHandles.length - 1 := by
          rw [hi2, hL2, hL1]
        have hcat2 : ∀ k, k < s2.actorHandles.length - 1 →
            (s2.recOf (s2.slotHandle k)).category
              = if k < s.numSimulatedBodies then ECreateActorType.DynamicActor
                else if k < s.numSimulatedBodies + (s.numKinematicBodies - 1) then
                  ECreateActorType.KinematicActor
                else ECreateActorType.StaticActor := by
          intro k hk
          rw [hL2, hL1] at hk
          have hk1 : k < s1.actorHandles.length := by
            rw [hL1]
            omega
          have hτ2 : transposeIdx (s.numSimulatedBodies + s.numKinematicBodies - 1)
              (s.actorHandles.length - 1) k < s.actorHandles.length := by
            have := transposeIdx_lt (s.numSimulatedBodies + s.numKinematicBodies - 1)
              (s.actorHandles.length - 1) k s1.actorHandles.length hb1 hb2 hk1
            rw [hL1] at this
            exact this
          rw [hs2, swap_slot_rec s1 (s.numSimulatedBodies + s.numKinematicBodies - 1)
            (s.actorHandles.length - 1) k A1 hb1 hb2 hk1]
          show (s1.recOf (s1.slotHandle
              (transposeIdx (s.numSimulatedBodies + s.numKinematicBodies - 1)
                (s.actorHandles.length - 1) k))).category = _
          rw [hs1, swap_slot_rec s (s.recOf h).index
            (s.numSimulatedBodies + s.numKinematicBodies - 1) _ W.toAlign hp hSK1 hτ2]
          show (s.recOf (s.slotHandle
              (transposeIdx (s.recOf h).index
                (s.numSimulatedBodies + s.numKinematicBodies - 1)
                (transposeIdx (s.numSimulatedBodies + s.numKinematicBodies - 1)
                  (s.actorHandles.length - 1) k)))).category = _
          rw [W.slot_cat _ (transposeIdx_lt _ _ _ _ hp hSK1 hτ2)]
          rw [categoryOf_eq s _ s.numSimulatedBodies s.numKinematicBodies rfl rfl]
          exact remove_cat_kinematic s.numSimulatedBodies s.numKinematicBodies
            s.actorHandles.length (s.recOf h).index k hpband.1 hpband.2 hcW hk
        exact WF_pop s2 h A2 hh2 hidx2 hl2 s.numSimulatedBodies (s.numKinematicBodies - 1)
          (by rw [hL2, hL1]; omega) hcat2
      | StaticActor =>
        have hpstat : s.numSimulatedBodies + s.numKinematicBodies ≤ (s.recOf h).index := by
          rw [hcE, categoryOf_eq s _ s.numSimulatedBodies s.numKinematicBodies rfl rfl] at hcatp
          split_ifs at hcatp with h1 h2
          all_goals first | omega | simp at hcatp
        have hre2 : s.removeActorRec h (s.recOf h)
            = popActor (s.SwapActorData (s.recOf h).index (s.actorHandles.length - 1)) h := by
          unfold removeActorRec
          rw [if_neg hnotfalse, hcE]
        rw [hre2]
        set s1 := s.SwapActorData (s.recOf h).index (s.actorHandles.length - 1) with hs1
        have hLm1 : s.actorHandles.length - 1 < s.actorHandles.length := by omega
        have A1 : s1.Align := align_swap s (s.recOf h).index
          (s.actorHandles.length - 1) W.toAlign hp hLm1
        have hL1 : s1.actorHandles.length = s.actorHandles.length :=
          (swap_lengths s (s.recOf h).index (s.actorHandles.length - 1)).1
        have hR1 : s1.handleRecs.length = s.handleRecs.length :=
          (swap_lengths s (s.recOf h).index (s.actorHandles.length - 1)).2.2.2.2.2
        have hh1 : h < s1.handleRecs.length := by
          rw [hR1]
          exact hh
        obtain ⟨hi1, hl1, -⟩ := swap_recOf_live s (s.recOf h).index
          (s.actorHandles.length - 1) h W.toAlign hp hLm1 hh hlive
        rw [transposeIdx_left] at hi1
        rw [hlive] at hl1
        have hidx1 : (s1.recOf h).index = s1.actorHandles.length - 1 := by
          rw [hi1, hL1]
        have hcat1 : ∀ k, k < s1.actorHandles.length - 1 →
            (s1.recOf (s1.slotHandle k)).category
              = if k < s.numSimulatedBodies then ECreateActorType.DynamicActor
                else if k < s.numSimulatedBodies + s.numKinematicBodies then
                  ECreateActorType.KinematicActor
                else ECreateActorType.StaticActor := by
          intro k hk
          rw [hL1] at hk
          have hk0 : k < s.actorHandles.length := by omega
          rw [hs1, swap_slot_rec s (s.recOf h).index (s.actorHandles.length - 1) k
            W.toAlign hp hLm1 hk0]
          show (s.recOf (s.slotHandle
              (transposeIdx (s.recOf h).index (s.actorHandles.length - 1) k))).category = _
          rw [W.slot_cat _ (transposeIdx_lt _ _ _ _ hp hLm1 hk0)]
          rw [categoryOf_eq s _ s.numSimulatedBodies s.numKinematicBodies rfl rfl]
          exact remove_cat_static s.numSimulatedBodies s.numKinematicBodies
            s.actorHandles.length (s.recOf h).index k hpstat hp hcW hk
        exact WF_pop s1 h A1 hh1 hidx1 hl1 s.numSimulatedBodies s.numKinematicBodies
          (by rw [hL1]; omega) hcat1
    · have hfalse : (s.recOf h).live = false := by
        rcases Bool.eq_false_or_eq_true (s.recOf h).live with hb | hb
        · exact absurd hb hlive
        · exact hb
      unfold removeActorRec
      rw [if_pos hfalse]
      exact W
  · have hnone : s.handleRecs[h]? = none := List.getElem?_eq_none (by omega)
    unfold RemoveActor
    rw [hnone]
    exact W

/-- The empty world satisfies the registry invariant vacuously. -/
theorem WF_emptySimulation : emptySimulation.WF := by
  refine ⟨⟨rfl, rfl, rfl, rfl, ?_, ?_, ?_, ?_, ?_, ?_⟩, ?_⟩
  · show (0 : Nat) + 0 ≤ 0
    omega
  all_goals intro i hi
  all_goals first
    | (exact absurd hi (by intro hcontra; cases hcontra))
    | (intro hlive; exact absurd hi (by intro hcontra; cases hcontra))

/-- Every structural operation preserves the registry invariant. -/
theorem WF_applyOp (s : FLocalSimulation) (W : s.WF) (op : FSimOp) :
    (applyOp s op).WF := by
  cases op with
  | createDynamic init => exact WF_createDynamic s W init
  | createKinematic init => exact WF_createKinematic s W init
  | createStatic init => exact WF_createStatic s W init
  | removeActor h => exact WF_removeActor s W h

/-- Any sequence of structural operations preserves the invariant. -/
theorem WF_applyOps (ops : List FSimOp) (s : FLocalSimulation) (W : s.WF) :
    (applyOps s ops).WF := by
  induction ops generalizing s with
  | nil => exact W
  | cons op rest ih => exact ih (applyOp s op) (WF_applyOp s W op)

/-- C1: over every sequence of actor create/remove operations from the
empty simulation, the per-actor parallel arrays (actor handles, actors,
rigid-body data, solver-body data, pending accelerations) keep equal
length, and every live handle resolves to an in-range storage index
whose partition category is the handle's creation category. -/
theorem c1_registry_invariant (ops : List FSimOp) :
    ((applyOps emptySimulation ops).actors.length
        = (applyOps emptySimulation ops).actorHandles.length ∧
      (applyOps emptySimulation ops).rigidBodiesData.length
        = (applyOps emptySimulation ops).actorHandles.length ∧
      (applyOps emptySimulation ops).solverBodiesData.length
        = (applyOps emptySimulation ops).actorHandles.length ∧
      (applyOps emptySimulation ops).pendingAcceleration.length
        = (applyOps emptySimulation ops).actorHandles.length) ∧
    (∀ h, h < (applyOps emptySimulation ops).handleRecs.length →
      ((applyOps emptySimulation ops).recOf h).live = true →
      ((applyOps emptySimulation ops).recOf h).index
          < (applyOps emptySimulation ops).actorHandles.length ∧
      (applyOps emptySimulation ops).categoryOf
          ((applyOps emptySimulation ops).recOf h).index
        = ((applyOps emptySimulation ops).recOf h).category) := by
  have W := WF_applyOps ops emptySimulation WF_emptySimulation
  refine ⟨⟨W.len_actors, W.len_rigid, W.len_solver, W.len_pending⟩, ?_⟩
  intro h hh hlive
  refine ⟨W.live_index_lt h hh hlive, ?_⟩
  have hsc := W.slot_cat _ (W.live_index_lt h hh hlive)
  rw [W.live_slot h hh hlive] at hsc
  exact hsc.symm

/-- Witness for C1 at a concrete operation sequence: a dynamic create,
a kinematic create, then removal of the dynamic actor; the surviving
kinematic handle still resolves into the kinematic partition. -/
theorem c1_registry_invariant_witness :
    (applyOps emptySimulation [FSimOp.createDynamic witnessInit,
        FSimOp.createKinematic witnessInit, FSimOp.removeActor 0]).categoryOf
        ((applyOps emptySimulation [FSimOp.createDynamic witnessInit,
          FSimOp.createKinematic witnessInit, FSimOp.removeActor 0]).recOf 1).index
      = ((applyOps emptySimulation [FSimOp.createDynamic witnessInit,
          FSimOp.createKinematic witnessInit, FSimOp.removeActor 0]).recOf 1).category :=
  ((c1_registry_invariant [FSimOp.createDynamic witnessInit,
      FSimOp.createKinematic witnessInit, FSimOp.removeActor 0]).2 1
    (by with_unfolding_all decide) (by with_unfolding_all decide)).2

/-- A slot swap does not change what any live handle resolves to. -/
theorem swap_resolve (s : FLocalSimulation) (i j h : Nat) (A : s.Align)
    (hi : i < s.actorHandles.length) (hj : j < s.actorHandles.length)
    (hlt : h < s.handleRecs.length) (hlive : (s.recOf h).live = true) :
    (s.SwapActorData i j).resolveActor h = s.resolveActor h ∧
    (s.SwapActorData i j).resolveBody h = s.resolveBody h := by
  obtain ⟨hidx, -, -⟩ := swap_recOf_live s i j h A hi hj hlt hlive
  unfold resolveActor resolveBody
  rw [hidx]
  constructor
  · rw [swap_getD_actors s i j _ (by rw [A.len_actors]; exact hi)
      (by rw [A.len_actors]; exact hj), transposeIdx_invol]
  · rw [swap_getD_rigid s i j _ (by rw [A.len_rigid]; exact hi)
      (by rw [A.len_rigid]; exact hj), transposeIdx_invol]

/-- Popping the retired last slot does not change what any other live
handle resolves to, keeps it live, and its recorded index still points
at a slot holding it. -/
theorem pop_resolve (t : FLocalSimulation) (h h' : Nat) (A : t.Align)
    (hne : h' ≠ h)
    (hh : h < t.handleRecs.length) (hliveH : (t.recOf h).live = true)
    (hidx : (t.recOf h).index = t.actorHandles.length - 1)
    (hh' : h' < t.handleRecs.length) (hlive' : (t.recOf h').live = true)
    (S' K' : Nat) :
    (popActor { t with numSimulatedBodies := S', numKinematicBodies := K' } h).resolveActor h'
      = t.resolveActor h' ∧
    (popActor { t with numSimulatedBodies := S', numKinematicBodies := K' } h).resolveBody h'
      = t.resolveBody h' ∧
    ((popActor { t with numSimulatedBodies := S', numKinematicBodies := K' } h).recOf
      h').live = true ∧
    (popActor { t with numSimulatedBodies := S', numKinematicBodies := K' } h).slotHandle
      ((popActor { t with numSimulatedBodies := S', numKinematicBodies := K' } h).recOf
        h').index = h' := by
  have hlt' := A.live_index_lt h' hh' hlive'
  have hne_idx : (t.recOf h').index ≠ t.actorHandles.length - 1 := by
    intro hcontra
    have hs1 := A.live_slot h' hh' hlive'
    have hs2 := A.live_slot h hh hliveH
    rw [hcontra] at hs1
    rw [hidx] at hs2
    rw [hs2] at hs1
    exact hne hs1.symm
  have hidxlt : (t.recOf h').index < t.actorHandles.length - 1 := by omega
  have hrecd : ({ t with numSimulatedBodies := S', numKinematicBodies := K' }
      : FLocalSimulation).recOf h' = t.recOf h' := rfl
  have hget := pop_recOf_ne
    { t with numSimulatedBodies := S', numKinematicBodies := K' } h h' hne
  rw [hrecd] at hget
  refine ⟨?_, ?_, ?_, ?_⟩
  · unfold resolveActor
    rw [hget]
    show t.actors.dropLast.getD (t.recOf h').index default
      = t.actors.getD (t.recOf h').index default
    exact getD_dropLast _ _ _ (by rw [A.len_actors]; omega)
  · unfold resolveBody
    rw [hget]
    show t.rigidBodiesData.dropLast.getD (t.recOf h').index default
      = t.rigidBodiesData.getD (t.recOf h').index default
    exact getD_dropLast _ _ _ (by rw [A.len_rigid]; omega)
  · rw [hget]
    exact hlive'
  · rw [hget]
    rw [pop_slotHandle { t with numSimulatedBodies := S', numKinematicBodies := K' } h
      (t.recOf h').index hidxlt]
    show t.slotHandle (t.recOf h').index = h'
    exact A.live_slot h' hh' hlive'

set_option maxHeartbeats 2000000 in
/-- C3 (amended): for every other live handle, removal leaves the
resolved loose actor data (shape set and order) and rigid body data
(world transform, velocities, mass/inertia) bit-for-bit unchanged; the
relabeled survivors — one per category boundary from the removed
actor's category onward, not only the actor swapped into the removed
slot — keep live handles whose updated recorded indices resolve back to
them. -/
theorem c3_remove_preserves_others (s : FLocalSimulation) (W : s.WF) (h h' : Nat)
    (hh : h < s.handleRecs.length) (hlive : (s.recOf h).live = true)
    (hh' : h' < s.handleRecs.length) (hlive' : (s.recOf h').live = true)
    (hne : h' ≠ h) :
    (s.RemoveActor h).resolveActor h' = s.resolveActor h' ∧
    (s.RemoveActor h).resolveBody h' = s.resolveBody h' ∧
    ((s.RemoveActor h).recOf h').live = true ∧
    (s.RemoveActor h).slotHandle ((s.RemoveActor h).recOf h').index = h' := by
  have hsome := getElem?_handleRecs s h hh
  have hre : s.RemoveActor h = s.removeActorRec h (s.recOf h) := by
    unfold RemoveActor
    rw [hsome]
  rw [hre]
  have hp := W.live_index_lt h hh hlive
  have hsl := W.live_slot h hh hlive
  have hcatp : (s.recOf h).category = s.categoryOf (s.recOf h).index := by
    have hsc := W.slot_cat (s.recOf h).index hp
    rw [hsl] at hsc
    exact hsc
  have hcW := W.counts_le
  have hnotfalse : ¬((s.recOf h).live = false) := by simp [hlive]
  cases hcE : (s.recOf h).category with
  | DynamicActor =>
    have hplt : (s.recOf h).index < s.numSimulatedBodies := by
      rw [hcE, categoryOf_eq s _ s.numSimulatedBodies s.numKinematicBodies rfl rfl] at hcatp
      split_ifs at hcatp with h1 h2
      all_goals first | exact h1 | simp at hcatp
    have hre2 : s.removeActorRec h (s.recOf h)
        = popActor
          { ((s.SwapActorData (s.recOf h).index (s.numSimulatedBodies - 1)).SwapActorData
              (s.numSimulatedBodies - 1)
              (s.numSimulatedBodies + s.numKinematicBodies - 1)).SwapActorData
              (s.numSimulatedBodies + s.numKinematicBodies - 1)
              (s.actorHandles.length - 1)
            with numSimulatedBodies := s.numSimulatedBodies - 1 } h := by
      unfold removeActorRec
      rw [if_neg hnotfalse, hcE]
    rw [hre2]
    set s1 := s.SwapActorData (s.recOf h).index (s.numSimulatedBodies - 1) with hs1
    set s2 := s1.SwapActorData (s.numSimulatedBodies - 1)
      (s.numSimulatedBodies + s.numKinematicBodies - 1) with hs2
    set s3 := s2.SwapActorData (s.numSimulatedBodies + s.numKinematicBodies - 1)
      (s.actorHandles.length - 1) with hs3
    have hS1 : s.numSimulatedBodies - 1 < s.actorHandles.length := by omega
    have A1 : s1.Align := align_swap s (s.recOf h).index (s.numSimulatedBodies - 1)
      W.toAlign hp hS1
    have hL1 : s1.actorHandles.length = s.actorHandles.length :=
      (swap_lengths s (s.recOf h).index (s.numSimulatedBodies - 1)).1
    have hR1 : s1.handleRecs.length = s.handleRecs.length :=
      (swap_lengths s (s.recOf h).index (s.numSimulatedBodies - 1)).2.2.2.2.2
    have hb1 : s.numSimulatedBodies - 1 < s1.actorHandles.length := by
      rw [hL1]
      omega
    have hb2 : s.numSimulatedBodies + s.numKinematicBodies - 1 < s1.actorHandles.length := by
      rw [hL1]
      omega
    have A2 : s2.Align := align_swap s1 (s.numSimulatedBodies - 1)
      (s.numSimulatedBodies + s.numKinematicBodies - 1) A1 hb1 hb2
    have hL2 : s2.actorHandles.length = s1.actorHandles.length :=
      (swap_lengths s1 (s.numSimulatedBodies - 1)
        (s.numSimulatedBodies + s.numKinematicBodies - 1)).1
    have hR2 : s2.handleRecs.length = s1.handleRecs.length :=
      (swap_lengths s1 (s.numSimulatedBodies - 1)
        (s.numSimulatedBodies + s.numKinematicBodies - 1)).2.2.2.2.2
    have hc1 : s.numSimulatedBodies + s.numKinematicBodies - 1 < s2.actorHandles.length := by
      rw [hL2, hL1]
      omega
    have hc2 : s.actorHandles.length - 1 < s2.actorHandles.length := by
      rw [hL2, hL1]
      omega
    have A3 : s3.Align := align_swap s2 (s.numSimulatedBodies + s.numKinematicBodies - 1)
      (s.actorHandles.length - 1) A2 hc1 hc2
    have hR3 : s3.handleRecs.length = s2.handleRecs.length :=
      (swap_lengths s2 (s.numSimulatedBodies + s.numKinematicBodies - 1)
        (s.actorHandles.length - 1)).2.2.2.2.2
    have hL3 : s3.actorHandles.length = s2.actorHandles.length :=
      (swap_lengths s2 (s.numSimulatedBodies + s.numKinematicBodies - 1)
        (s.actorHandles.length - 1)).1
    have hh1 : h < s1.handleRecs.length := by
      rw [hR1]
      exact hh
    have hh2 : h < s2.handleRecs.length := by
      rw [hR2, hR1]
      exact hh
    have hh3 : h < s3.handleRecs.length := by
      rw [hR3, hR2, hR1]
      exact hh
    have hh1' : h' < s1.handleRecs.length := by
      rw [hR1]
      exact hh'
    have hh2' : h' < s2.handleRecs.length := by
      rw [hR2, hR1]
      exact hh'
    have hh3' : h' < s3.handleRecs.length := by
      rw [hR3, hR2, hR1]
      exact hh'
    obtain ⟨hi1, hl1, -⟩ := swap_recOf_live s (s.recOf h).index
      (s.numSimulatedBodies - 1) h W.toAlign hp hS1 hh hlive
    rw [transposeIdx_left] at hi1
    rw [hlive] at hl1
    obtain ⟨-, hl1', -⟩ := swap_recOf_live s (s.recOf h).index
      (s.numSimulatedBodies - 1) h' W.toAlign hp hS1 hh' hlive'
    rw [hlive'] at hl1'
    obtain ⟨hi2, hl2, -⟩ := swap_recOf_live s1 (s.numSimulatedBodies - 1)
      (s.numSimulatedBodies + s.numKinematicBodies - 1) h A1 hb1 hb2 hh1 hl1
    rw [hi1, transposeIdx_left] at hi2
    rw [hl1] at hl2
    obtain ⟨-, hl2', -⟩ := swap_recOf_live s1 (s.numSimulatedBodies - 1)
      (s.numSimulatedBodies + s.numKinematicBodies - 1) h' A1 hb1 hb2 hh1' hl1'
    rw [hl1'] at hl2'
    obtain ⟨hi3, hl3, -⟩ := swap_recOf_live s2
      (s.numSimulatedBodies + s.numKinematicBodies - 1)
      (s.actorHandles.length - 1) h A2 hc1 hc2 hh2 hl2
    rw [hi2, transposeIdx_left] at hi3
    rw [hl2] at hl3
    obtain ⟨-, hl3', -⟩ := swap_recOf_live s2
      (s.numSimulatedBodies + s.numKinematicBodies - 1)
      (s.actorHandles.length - 1) h' A2 hc1 hc2 hh2' hl2'
    rw [hl2'] at hl3'
    have hidx3 : (s3.recOf h).index = s3.actorHandles.length - 1 := by
      rw [hi3, hL3, hL2, hL1]
    obtain ⟨hpa, hpb, hpl, hps⟩ := pop_resolve s3 h h' A3 hne hh3 hl3 hidx3 hh3'
      hl3' (s.numSimulatedBodies - 1) s.numKinematicBodies
    obtain ⟨hs3a, hs3b⟩ := swap_resolve s2 (s.numSimulatedBodies + s.numKinematicBodies - 1)
      (s.actorHandles.length - 1) h' A2 hc1 hc2 hh2' hl2'
    obtain ⟨hs2a, hs2b⟩ := swap_resolve s1 (s.numSimulatedBodies - 1)
      (s.numSimulatedBodies + s.numKinematicBodies - 1) h' A1 hb1 hb2 hh1' hl1'
    obtain ⟨hs1a, hs1b⟩ := swap_resolve s (s.recOf h).index (s.numSimulatedBodies - 1) h'
      W.toAlign hp hS1 hh' hlive'
    exact ⟨hpa.trans (hs3a.trans (hs2a.trans hs1a)),
      hpb.trans (hs3b.trans (hs2b.trans hs1b)), hpl, hps⟩
  | KinematicActor =>
    have hpband : s.numSimulatedBodies ≤ (s.recOf h).index ∧
        (s.recOf h).index < s.numSimulatedBodies + s.numKinematicBodies := by
      rw [hcE, categoryOf_eq s _ s.numSimulatedBodies s.numKinematicBodies rfl rfl] at hcatp
      split_ifs at hcatp with h1 h2
      all_goals first | omega | simp at hcatp
    have hre2 : s.removeActorRec h (s.recOf h)
        = popActor
          { (s.SwapActorData (s.recOf h).index
              (s.numSimulatedBodies + s.numKinematicBodies - 1)).SwapActorData
              (s.numSimulatedBodies + s.numKinematicBodies - 1)
              (s.actorHandles.length - 1)
            with numKinematicBodies := s.numKinematicBodies - 1 } h := by
      unfold removeActorRec
      rw [if_neg hnotfalse, hcE]
    rw [hre2]
    set s1 := s.SwapActorData (s.recOf h).index
      (s.numSimulatedBodies + s.numKinematicBodies - 1) with hs1
    set s2 := s1.SwapActorData (s.numSimulatedBodies + s.numKinematicBodies - 1)
      (s.actorHandles.length - 1) with hs2
    have hSK1 : s.numSimulatedBodies + s.numKinematicBodies - 1
        < s.actorHandles.length := by omega
    have A1 : s1.Align := align_swap s (s.recOf h).index
      (s.numSimulatedBodies + s.numKinematicBodies - 1) W.toAlign hp hSK1
    have hL1 : s1.actorHandles.length = s.actorHandles.length :=
      (swap_lengths s (s.recOf h).index
        (s.numSimulatedBodies + s.numKinematicBodies - 1)).1
    have hR1 : s1.handleRecs.length = s.handleRecs.length :=
      (swap_lengths s (s.recOf h).index
        (s.numSimulatedBodies + s.numKinematicBodies - 1)).2.2.2.2.2
    have hb1 : s.numSimulatedBodies + s.numKinematicBodies - 1 < s1.actorHandles.length := by
      rw [hL1]
      omega
    have hb2 : s.actorHandles.length - 1 < s1.actorHandles.length := by
      rw [hL1]
      omega
    have A2 : s2.Align := align_swap s1 (s.numSimulatedBodies + s.numKinematicBodies - 1)
      (s.actorHandles.length - 1) A1 hb1 hb2
    have hL2 : s2.actorHandles.length = s1.actorHandles.length :=
      (swap_lengths s1 (s.numSimulatedBodies + s.numKinematicBodies - 1)
        (s.actorHandles.length - 1)).1
    have hR2 : s2.handleRecs.length = s1.handleRecs.length :=
      (swap_lengths s1 (s.numSimulatedBodies + s.numKinematicBodies - 1)
        (s.actorHandles.length - 1)).2.2.2.2.2
    have hh1 : h < s1.handleRecs.length := by
      rw [hR1]
      exact hh
    have hh2 : h < s2.handleRecs.length := by
      rw [hR2, hR1]
      exact hh
    have hh1' : h' < s1.handleRecs.length := by
      rw [hR1]
      exact hh'
    have hh2' : h' < s2.handleRecs.length := by
      rw [hR2, hR1]
      exact hh'
    obtain ⟨hi1, hl1, -⟩ := swap_recOf_live s (s.recOf h).index
      (s.numSimulatedBodies + s.numKinematicBodies - 1) h W.toAlign hp hSK1 hh hlive
    rw [transposeIdx_left] at hi1
    rw [hlive] at hl1
    obtain ⟨-, hl1', -⟩ := swap_recOf_live s (s.recOf h).index
      (s.numSimulatedBodies + s.numKinematicBodies - 1) h' W.toAlign hp hSK1 hh' hlive'
    rw [hlive'] at hl1'
    obtain ⟨hi2, hl2, -⟩ := swap_recOf_live s1
      (s.numSimulatedBodies + s.numKinematicBodies - 1)
      (s.actorHandles.length - 1) h A1 hb1 hb2 hh1 hl1
    rw [hi1, transposeIdx_left] at hi2
    rw [hl1] at hl2
    obtain ⟨-, hl2', -⟩ := swap_recOf_live s1
      (s.numSimulatedBodies + s.numKinematicBodies - 1)
      (s.actorHandles.length - 1) h' A1 hb1 hb2 hh1' hl1'
    rw [hl1'] at hl2'
    have hidx2 : (s2.recOf h).index = s2.actorHandles.length - 1 := by
      rw [hi2, hL2, hL1]
    obtain ⟨hpa, hpb, hpl, hps⟩ := pop_resolve s2 h h' A2 hne hh2 hl2 hidx2 hh2'
      hl2' s.numSimulatedBodies (s.numKinematicBodies - 1)
    obtain ⟨hs2a, hs2b⟩ := swap_resolve s1
      (s.numSimulatedBodies + s.numKinematicBodies - 1)
      (s.actorHandles.length - 1) h' A1 hb1 hb2 hh1' hl1'
    obtain ⟨hs1a, hs1b⟩ := swap_resolve s (s.recOf h).index
      (s.numSimulatedBodies + s.numKinematicBodies - 1) h' W.toAlign hp hSK1 hh' hlive'
    exact ⟨hpa.trans (hs2a.trans hs1a), hpb.trans (hs2b.trans hs1b), hpl, hps⟩
  | StaticActor =>
    have hpstat : s.numSimulatedBodies + s.numKinematicBodies ≤ (s.recOf h).index := by
      rw [hcE, categoryOf_eq s _ s.numSimulatedBodies s.numKinematicBodies rfl rfl] at hcatp
      split_ifs at hcatp with h1 h2
      all_goals first | omega | simp at hcatp
    have hre2 : s.removeActorRec h (s.recOf h)
        = popActor (s.SwapActorData (s.recOf h).index (s.actorHandles.length - 1)) h := by
      unfold removeActorRec
      rw [if_neg hnotfalse, hcE]
    rw [hre2]
    set s1 := s.SwapActorData (s.recOf h).index (s.actorHandles.length - 1) with hs1
    have hLm1 : s.actorHandles.length - 1 < s.actorHandles.length := by omega
    have A1 : s1.Align := align_swap s (s.recOf h).index
      (s.actorHandles.length - 1) W.toAlign hp hLm1
    have hL1 : s1.actorHandles.length = s.actorHandles.length :=
      (swap_lengths s (s.recOf h).index (s.actorHandles.length - 1)).1
    have hR1 : s1.handleRecs.length = s.handleRecs.length :=
      (swap_lengths s (s.recOf h).index (s.actorHandles.length - 1)).2.2.2.2.2
    have hh1 : h < s1.handleRecs.length := by
      rw [hR1]
      exact hh
    have hh1' : h' < s1.handleRecs.length := by
      rw [hR1]
      exact hh'
    obtain ⟨hi1, hl1, -⟩ := swap_recOf_live s (s.recOf h).index
      (s.actorHandles.length - 1) h W.toAlign hp hLm1 hh hlive
    rw [transposeIdx_left] at hi1
    rw [hlive] at hl1
    obtain ⟨-, hl1', -⟩ := swap_recOf_live s (s.recOf h).index
      (s.actorHandles.length - 1) h' W.toAlign hp hLm1 hh' hlive'
    rw [hlive'] at hl1'
    have hidx1 : (s1.recOf h).index = s1.actorHandles.length - 1 := by
      rw [hi1, hL1]
    obtain ⟨hpa, hpb, hpl, hps⟩ := pop_resolve s1 h h' A1 hne hh1 hl1 hidx1 hh1'
      hl1' s.numSimulatedBodies s.numKinematicBodies
    obtain ⟨hs1a, hs1b⟩ := swap_resolve s (s.recOf h).index (s.actorHandles.length - 1) h'
      W.toAlign hp hLm1 hh' hlive'
    exact ⟨hpa.trans hs1a, hpb.trans hs1b, hpl, hps⟩

/-- Witness for C3 (amended) at a concrete world: removing the first of
two dynamic actors leaves the other's handle resolving to its original
data, with its updated index pointing back at it. -/
theorem c3_remove_preserves_others_witness :
    (((emptySimulation.CreateDynamicActor witnessInit).CreateDynamicActor
        (witnessInitAt ⟨7, 0, 0⟩)).RemoveActor 0).resolveBody 1
      = ((emptySimulation.CreateDynamicActor witnessInit).CreateDynamicActor
        (witnessInitAt ⟨7, 0, 0⟩)).resolveBody 1 :=
  (c3_remove_preserves_others
    ((emptySimulation.CreateDynamicActor witnessInit).CreateDynamicActor
      (witnessInitAt ⟨7, 0, 0⟩))
    (WF_applyOps [FSimOp.createDynamic witnessInit,
      FSimOp.createDynamic (witnessInitAt ⟨7, 0, 0⟩)] emptySimulation WF_emptySimulation)
    0 1 (by with_unfolding_all decide) (by with_unfolding_all decide)
    (by with_unfolding_all decide) (by with_unfolding_all decide)
    (by decide)).2.1

/-- C3 counterexample: in a world with two dynamic actors and one
kinematic actor, removing the first dynamic actor relabels the
kinematic actor's handle (index 2 becomes 1), an actor that was not
swapped into the removed actor's slot 0 — so more than "only the actor
swapped into h's slot" is relabeled. -/
theorem c3_counterexample :
    (((((emptySimulation.CreateDynamicActor witnessInit).CreateDynamicActor
        witnessInit).CreateKinematicActor witnessInit).RemoveActor 0).recOf 2).index
      ≠ ((((emptySimulation.CreateDynamicActor witnessInit).CreateDynamicActor
        witnessInit).CreateKinematicActor witnessInit).recOf 2).index ∧
    (((((emptySimulation.CreateDynamicActor witnessInit).CreateDynamicActor
        witnessInit).CreateKinematicActor witnessInit).RemoveActor 0).recOf 2).index
      ≠ ((((emptySimulation.CreateDynamicActor witnessInit).CreateDynamicActor
        witnessInit).CreateKinematicActor witnessInit).recOf 0).index ∧
    (((((emptySimulation.CreateDynamicActor witnessInit).CreateDynamicActor
        witnessInit).CreateKinematicActor witnessInit).RemoveActor 0).recOf 2).live
      = true ∧
    ((((emptySimulation.CreateDynamicActor witnessInit).CreateDynamicActor
        witnessInit).CreateKinematicActor witnessInit).recOf 2).live = true ∧
    ((((emptySimulation.CreateDynamicActor witnessInit).CreateDynamicActor
        witnessInit).CreateKinematicActor witnessInit).recOf 0).live = true := by
  with_unfolding_all decide

/-- Witness for C2 at a concrete world: two geometrically overlapping
dynamic actors whose pair is placed in the ignore table; the step
produces no contact pair carrying their handles. -/
theorem c2_ignored_pairs_suppressed_witness :
    ((((emptySimulation.CreateDynamicActor (witnessInitAt Vec3.zero)).CreateDynamicActor
          (witnessInitAt ⟨1, 0, 0⟩)).SetIgnoreCollisionPairTable [(0, 1)]).Simulate 1
        Vec3.zero).contactPairs.all
      (fun cp =>
        !((((emptySimulation.CreateDynamicActor (witnessInitAt Vec3.zero)).CreateDynamicActor
              (witnessInitAt ⟨1, 0, 0⟩)).HandleOfIndex cp.a == 0 &&
            ((emptySimulation.CreateDynamicActor (witnessInitAt Vec3.zero)).CreateDynamicActor
              (witnessInitAt ⟨1, 0, 0⟩)).HandleOfIndex cp.b == 1) ||
          (((emptySimulation.CreateDynamicActor (witnessInitAt Vec3.zero)).CreateDynamicActor
              (witnessInitAt ⟨1, 0, 0⟩)).HandleOfIndex cp.a == 1 &&
            ((emptySimulation.CreateDynamicActor (witnessInitAt Vec3.zero)).CreateDynamicActor
              (witnessInitAt ⟨1, 0, 0⟩)).HandleOfIndex cp.b == 0))) = true :=
  (c2_ignored_pairs_suppressed
    ((emptySimulation.CreateDynamicActor (witnessInitAt Vec3.zero)).CreateDynamicActor
      (witnessInitAt ⟨1, 0, 0⟩)) 1 Vec3.zero [(0, 1)] [] 0 1 (by decide)).1
    (Or.inl (by decide))

end FLocalSimulation

end LocalPhysics
